import Mathlib

/-! # PettingZoo: per-frame game logic

Shallow embedding of `src/src/gamelogic.cpp` (`player_setup`, `game_update`,
`physics_sim`, `tile_at`, `tile_solid`, `dist`, `get_input_tiles`), and a model of the
feed-forward evaluator whose chromosome layout `src/include/neural_network.hpp` documents.

Modelling conventions.

* C `float` values are exact rationals (`ℚ`) and there are no NaN or infinite values. The
  arithmetic of the source is carried out without rounding error, except in the button
  handling of lines 76-77 (`button_vx`), where every operation is rounded to binary32
  (`f32`): what those two lines leave in `vx` depends on the rounding.
* C `int` values are unbounded integers (`Int`); no computation of the source comes near
  the 32-bit range for the level sizes involved.
* The conversion `float → int` is truncation toward zero (`ftoi`); the library call
  `round` rounds to the nearest integer with halves away from zero (`cround`).
* The header `gamelogic.hpp` is not part of the sources at hand: every macro constant it
  provides is a field of `Config`, and each theorem lists the facts about the constants
  it relies on as hypotheses.
* A function that mutates its arguments through pointers returns the updated values.
-/

namespace PettingZoo

/-! ## Constants and data model -/

/-- Macro constants supplied by the header `gamelogic.hpp`. -/
structure Config where
  TILE_SIZE : Int
  LEVEL_WIDTH : Int
  LEVEL_HEIGHT : Int
  LEVEL_PIXEL_HEIGHT : Int
  SPAWN_X : Int
  SPAWN_Y : Int
  PLAYER_RIGHT : Int
  PLAYER_LEFT : Int
  PLAYER_MARGIN : Int
  V_X : ℚ
  V_JUMP : ℚ
  GRAVITY : ℚ
  INTERTA : ℚ
  UPDATES_PS : Int
  MAX_TIME : ℚ
  FIT_TIME_WEIGHT : ℚ
  FIT_BUTTONS_WEIGHT : ℚ
  EMPTY : Int
  FLAG : Int
  PIPE_BOTTOM : Int
  PIPE_MIDDLE : Int
  PIPE_TOP : Int
  GRASS : Int
  DIRT : Int
  BRICKS : Int
  SPIKES_TOP : Int
  SPIKES_BOTTOM : Int
  PLAYER_DEAD : Int
  PLAYER_TIMEOUT : Int
  PLAYER_COMPLETE : Int
  COL_RIGHT : Int
  COL_LEFT : Int
  BUTTON_RIGHT : Nat
  BUTTON_LEFT : Nat
  BUTTON_JUMP : Nat

/-- Physical state shared by the player and the enemies (`struct Body`). -/
structure Body where
  px : ℚ
  py : ℚ
  vx : ℚ
  vy : ℚ
  tile_x : Int
  tile_y : Int
  immune : Bool
  canjump : Bool
  isjump : Bool
  standing : Bool

/-- Player record (`struct Player`). -/
structure Player where
  body : Body
  score : ℚ
  fitness : ℚ
  time : ℚ
  buttonpresses : Int
  death_type : Int

/-- Enemy record (`struct Enemy`). -/
structure Enemy where
  body : Body
  direction : Int
  dead : Bool

/-- Game record (`struct Game`): `tiles` is the flat row-major tile array, read at index
`y * LEVEL_WIDTH + x`; `enemies` holds the first `n_enemies` entries of the enemy array. -/
structure Game where
  tiles : Int → Int
  enemies : List Enemy

/-- Conversion of a `float` to `int`: truncation toward zero. -/
def ftoi (q : ℚ) : Int := if 0 ≤ q then ⌊q⌋ else ⌈q⌉

/-- Library function `round`: nearest integer, halfway cases away from zero. -/
def cround (q : ℚ) : ℚ :=
  if 0 ≤ q then ((⌊q + 1 / 2⌋ : Int) : ℚ) else ((⌈q - 1 / 2⌉ : Int) : ℚ)

/-! ## Tile queries -/

/-- Tile value at a tile position (`tile_at`, lines 256-261). -/
def tile_at (c : Config) (game : Game) (x y : Int) : Int :=
  if x < 0 ∨ x ≥ c.LEVEL_WIDTH ∨ y < 0 ∨ y ≥ c.LEVEL_HEIGHT then 0
  else game.tiles (y * c.LEVEL_WIDTH + x)

/-- Solidity of the tile at a tile position (`tile_solid`, lines 271-282). -/
def tile_solid (c : Config) (game : Game) (x y : Int) : Bool :=
  let tile := tile_at c game x y
  if tile = c.EMPTY ∨ tile = c.FLAG then false else true

/-- Squared Euclidean distance, the radicand of `dist` (line 311). -/
def dist_sq (x1 y1 x2 y2 : ℚ) : ℚ := (x2 - x1) ^ 2 + (y2 - y1) ^ 2

/-- Test `dist(x1, y1, x2, y2) < r` for a non-negative radius `r`, decided on the squares:
`sqrt s < r` holds exactly when `s < r * r`. -/
def dist_lt (x1 y1 x2 y2 r : ℚ) : Bool := decide (dist_sq x1 y1 x2 y2 < r ^ 2)

/-! ## Physics step -/

/-- Jump handling of `physics_sim` (lines 163-178). -/
def jump_step (c : Config) (body : Body) (jump : Bool) : Body :=
  let b1 : Body :=
    if jump && body.canjump then
      { body with
        isjump := true
        canjump := false
        vy := if !body.standing then -c.V_JUMP else body.vy }
    else body
  let b2 : Body := if !jump && b1.isjump then { b1 with isjump := false } else b1
  if b2.isjump then
    let b3 : Body := { b2 with vy := b2.vy - 3 / 2 }
    if b3.vy ≤ -c.V_JUMP then { b3 with isjump := false, vy := -c.V_JUMP } else b3
  else b2

/-- Look-ahead centre column `tile_x` (line 181). -/
def look_tile_x (c : Config) (b : Body) : Int := ftoi ((b.px + b.vx + 16) / c.TILE_SIZE)

/-- Look-ahead centre row `tile_y` (line 182). -/
def look_tile_y (c : Config) (b : Body) : Int := ftoi ((b.py + b.vy + 16) / c.TILE_SIZE)

/-- Look-ahead feet row `feet_y` (line 183). -/
def look_feet_y (c : Config) (b : Body) : Int := ftoi ((b.py + b.vy + 33) / c.TILE_SIZE)

/-- Look-ahead head row `top_y` (line 184). -/
def look_top_y (c : Config) (b : Body) : Int := ftoi ((b.py + b.vy - 1) / c.TILE_SIZE)

/-- Look-ahead right-edge column `right_x` (line 185). -/
def look_right_x (c : Config) (b : Body) : Int :=
  ftoi ((b.px + b.vx + c.PLAYER_RIGHT + 1) / c.TILE_SIZE)

/-- Look-ahead left-edge column `left_x` (line 186). -/
def look_left_x (c : Config) (b : Body) : Int :=
  ftoi ((b.px + b.vx + c.PLAYER_LEFT - 1) / c.TILE_SIZE)

/-- Gravity and inertia (lines 188-192): stores the look-ahead tile, adds `GRAVITY` to
`vy` and divides `vx` by `INTERTA`. -/
def integrate_velocity (c : Config) (b : Body) : Body :=
  { b with
    tile_x := look_tile_x c b
    tile_y := look_tile_y c b
    vy := b.vy + c.GRAVITY
    vx := b.vx / c.INTERTA }

/-- Right collision (lines 194-199) on the body `b` after gravity, with the look-ahead
coordinates `right_x`, `tile_y`; returns the body and `return_value`. -/
def right_collision (c : Config) (game : Game) (right_x tile_y : Int) (b : Body) :
    Body × Int :=
  if tile_solid c game right_x tile_y || decide (right_x ≥ c.LEVEL_WIDTH) then
    ({ b with vx := 0, px := (((right_x - 1) * c.TILE_SIZE + c.PLAYER_MARGIN - 2 : Int) : ℚ) },
      c.COL_RIGHT)
  else (b, 0)

/-- Left collision (lines 201-206), run on the outcome of the right collision. -/
def left_collision (c : Config) (game : Game) (left_x tile_y : Int) (s : Body × Int) :
    Body × Int :=
  if tile_solid c game left_x tile_y || decide (left_x < 0) then
    ({ s.1 with vx := 0, px := (((left_x + 1) * c.TILE_SIZE - c.PLAYER_MARGIN + 2 : Int) : ℚ) },
      c.COL_LEFT)
  else s

/-- Horizontal phase of `physics_sim` (lines 181-206) on the body `b` left by the jump
handling: look-ahead tiles, gravity and inertia, right collision, then left collision. -/
def horizontal_step (c : Config) (game : Game) (b : Body) : Body × Int :=
  left_collision c game (look_left_x c b) (look_tile_y c b)
    (right_collision c game (look_right_x c b) (look_tile_y c b) (integrate_velocity c b))

/-- Column `tile_xr` under the right edge after the horizontal phase (line 208). -/
def edge_tile_xr (c : Config) (b : Body) : Int := ftoi ((b.px + c.PLAYER_RIGHT) / c.TILE_SIZE)

/-- Column `tile_xl` under the left edge after the horizontal phase (line 209). -/
def edge_tile_xl (c : Config) (b : Body) : Int := ftoi ((b.px + c.PLAYER_LEFT) / c.TILE_SIZE)

/-- Collision on bottom (lines 212-223). The flag is `true` when the function returns
`PLAYER_DEAD` at line 219; the body is the state at that point. -/
def bottom_collision (c : Config) (game : Game) (tile_xl tile_xr feet_y : Int) (b : Body) :
    Bool × Body :=
  let b0 : Body := { b with standing := false }
  if tile_solid c game tile_xl feet_y || tile_solid c game tile_xr feet_y then
    if b0.vy ≥ 0 then
      let b1 : Body := { b0 with vy := 0, canjump := true, standing := true }
      if !b1.immune && (decide (tile_at c game tile_xl feet_y = c.SPIKES_TOP)
          || decide (tile_at c game tile_xr feet_y = c.SPIKES_TOP)) then
        (true, b1)
      else (false, { b1 with py := (((feet_y - 1) * c.TILE_SIZE : Int) : ℚ) })
    else (false, { b0 with py := (((feet_y - 1) * c.TILE_SIZE : Int) : ℚ) })
  else (false, b0)

/-- Collision on top (lines 225-235). The flag is `true` when the function returns
`PLAYER_DEAD` at line 231. -/
def top_collision (c : Config) (game : Game) (tile_xl tile_xr top_y : Int) (b : Body) :
    Bool × Body :=
  if tile_solid c game tile_xl top_y || tile_solid c game tile_xr top_y then
    if b.vy < 0 then
      let b1 : Body := { b with vy := 0, isjump := false }
      if !b1.immune && (decide (tile_at c game tile_xl top_y = c.SPIKES_BOTTOM)
          || decide (tile_at c game tile_xr top_y = c.SPIKES_BOTTOM)) then
        (true, b1)
      else (false, { b1 with py := (((top_y + 1) * c.TILE_SIZE : Int) : ℚ) })
    else (false, { b with py := (((top_y + 1) * c.TILE_SIZE : Int) : ℚ) })
  else (false, b)

/-- Velocity application and tile update (lines 237-243). -/
def apply_velocity (c : Config) (b : Body) : Body :=
  let px := cround (b.px + b.vx)
  let py := cround (b.py + b.vy)
  { b with
    px := px
    py := py
    tile_x := ftoi ((px + 16) / c.TILE_SIZE)
    tile_y := ftoi ((py + 16) / c.TILE_SIZE) }

/-- Physics simulation of one body for one frame (`physics_sim`, lines 159-246): the
return value and the body as the call leaves it. -/
def physics_sim (c : Config) (game : Game) (body : Body) (jump : Bool) : Int × Body :=
  let b := jump_step c body jump
  let feet_y := look_feet_y c b
  let top_y := look_top_y c b
  let h := horizontal_step c game b
  let tile_xr := edge_tile_xr c h.1
  let tile_xl := edge_tile_xl c h.1
  let bot := bottom_collision c game tile_xl tile_xr feet_y h.1
  if bot.1 then (c.PLAYER_DEAD, bot.2)
  else
    let top := top_collision c game tile_xl tile_xr top_y bot.2
    if top.1 then (c.PLAYER_DEAD, top.2)
    else (h.2, apply_velocity c top.2)

/-! ## Game update -/

/-- Initialises / resets the player structure (`player_setup`, lines 37-52);
`death_type` is not assigned. -/
def player_setup (c : Config) (player : Player) : Player :=
  let px : ℚ := ((c.SPAWN_X * c.TILE_SIZE : Int) : ℚ)
  let py : ℚ := ((c.SPAWN_Y * c.TILE_SIZE : Int) : ℚ)
  { player with
    body :=
      { px := px
        py := py
        vx := 0
        vy := 0
        tile_x := ftoi (px / c.TILE_SIZE)
        tile_y := ftoi (py / c.TILE_SIZE)
        immune := false
        canjump := false
        isjump := false
        standing := false }
    score := 0
    fitness := 0
    time := 0
    buttonpresses := 0 }

/-- Loop of lines 112-115: no tile of column `tile_x` from row `tile_y` down to row
`LEVEL_HEIGHT - 1` is solid. -/
def empty_below (c : Config) (game : Game) (tile_x tile_y : Int) : Bool :=
  (List.range (c.LEVEL_HEIGHT - tile_y).toNat).all
    (fun k => !tile_solid c game tile_x (tile_y + (k : Int)))

/-- Body of the enemy loop for an enemy that is not dead, up to the direction change
(lines 105-124). -/
def enemy_update (c : Config) (game : Game) (enemy : Enemy) : Enemy :=
  let r := physics_sim c game { enemy.body with vx := (enemy.direction : ℚ) } false
  let ret := r.1
  let dead := if ret = c.PLAYER_DEAD then true else enemy.dead
  let direction :=
    if empty_below c game r.2.tile_x r.2.tile_y then -enemy.direction
    else if ret = c.COL_RIGHT ∧ enemy.direction > 0 then -enemy.direction
    else if ret = c.COL_LEFT ∧ enemy.direction < 0 then -enemy.direction
    else enemy.direction
  { body := r.2, direction := direction, dead := dead }

/-- Enemy loop of `game_update` (lines 96-132) over the enemies not yet visited. The flag
is `true` when the loop leaves through the player kill at lines 128-129. -/
def enemies_loop (c : Config) (game : Game) (player : Player) : List Enemy → Bool × List Enemy
  | [] => (false, [])
  | enemy :: rest =>
    if !enemy.dead then
      let e := enemy_update c game enemy
      if dist_lt player.body.px player.body.py e.body.px e.body.py 32 then (true, e :: rest)
      else
        let r := enemies_loop c game player rest
        (r.1, e :: r.2)
    else
      let r := enemies_loop c game player rest
      (r.1, enemy :: r.2)

/-- Elapsed time advanced by one tick (line 67). -/
def advance_time (c : Config) (player : Player) : Player :=
  { player with time := player.time + 1 / (c.UPDATES_PS : ℚ) }

/-- Nearest integer to `r`, halfway cases to the even neighbour. -/
def round_half_even (r : ℚ) : Int :=
  if r - (⌊r⌋ : ℚ) < 1 / 2 then ⌊r⌋
  else if r - (⌊r⌋ : ℚ) > 1 / 2 then ⌊r⌋ + 1
  else if ⌊r⌋ % 2 = 0 then ⌊r⌋ else ⌊r⌋ + 1

/-- Search upward from the power of two `p ≤ a`: the largest power of two not above `a`,
among `p, 2 p, ...` (at most `n` doublings). -/
def binade_up (a : ℚ) : Nat → ℚ → ℚ
  | 0, p => p
  | n + 1, p => if a < 2 * p then p else binade_up a n (2 * p)

/-- Search downward from the power of two `p`: the largest power of two not above `a`
among `p, p / 2, ...`, and `p / 2 ^ n` when none of the first `n` is. -/
def binade_down (a : ℚ) : Nat → ℚ → ℚ
  | 0, p => p
  | n + 1, p => if p ≤ a then p else binade_down a n (p / 2)

/-- The power of two `2 ^ e` that fixes the spacing of the binary32 values next to `q`:
`e` is the exponent of `q` (`2 ^ e ≤ |q| < 2 ^ (e + 1)`), and `e = -126` for every `q`
below the normal range. -/
def f32_binade (q : ℚ) : ℚ :=
  if 1 ≤ |q| then binade_up |q| 127 1 else binade_down |q| 125 (1 / 2)

/-- Rounding of an exact result to the type `float` (IEEE 754 binary32, 24 significant
bits, round to nearest with ties to even, gradual underflow): the nearest multiple of
`2 ^ (e - 23)`. Overflow to infinity is not modelled: the function is meant for results
of magnitude below `2 ^ 128`. -/
def f32 (q : ℚ) : ℚ :=
  if q = 0 then 0
  else (round_half_even (q / (f32_binade q / 2 ^ 23)) : ℚ) * (f32_binade q / 2 ^ 23)

/-- Horizontal velocity after the right and then the left button press (lines 76-77), in
`float` arithmetic: each subtraction, each product with the button byte and each `+=` is
rounded to binary32. -/
def button_vx (c : Config) (vx : ℚ) (input : Nat → Nat) : ℚ :=
  let vx1 := f32 (vx + f32 (f32 (c.V_X - vx) * (input c.BUTTON_RIGHT : ℚ)))
  f32 (vx1 + f32 (f32 (-c.V_X - vx1) * (input c.BUTTON_LEFT : ℚ)))

/-- Button handling (lines 75-80): horizontal velocity and the button-press counter. -/
def press_buttons (c : Config) (player : Player) (input : Nat → Nat) : Player :=
  { player with
    body := { player.body with vx := button_vx c player.body.vx input }
    buttonpresses := player.buttonpresses
      + ((input c.BUTTON_JUMP + input c.BUTTON_LEFT + input c.BUTTON_RIGHT : Nat) : Int) }

/-- Argument `jump` of the player physics call (line 83): `input[BUTTON_JUMP]` as `bool`. -/
def jump_pressed (c : Config) (input : Nat → Nat) : Bool := decide (input c.BUTTON_JUMP ≠ 0)

/-- Physics call for the player (line 83), on a frame that passes the time limit check:
the return value and the player body it leaves. -/
def player_physics (c : Config) (game : Game) (player : Player) (input : Nat → Nat) :
    Int × Body :=
  physics_sim c game (press_buttons c (advance_time c player) input).body (jump_pressed c input)

/-- Fitness value computed at lines 135-138. -/
def frame_fitness (c : Config) (player : Player) : ℚ :=
  100 + player.score + player.body.px - player.time * c.FIT_TIME_WEIGHT
    - (player.buttonpresses : ℚ) * c.FIT_BUTTONS_WEIGHT

/-- One frame of the game (`game_update`, lines 62-149): the return value, the game and
the player as the call leaves them. The button array `input` is given as the map from
an index to the byte stored there. -/
def game_update (c : Config) (game : Game) (player : Player) (input : Nat → Nat) :
    Int × Game × Player :=
  let p1 := advance_time c player
  if p1.time ≥ c.MAX_TIME - 1 / (c.UPDATES_PS : ℚ) then
    (c.PLAYER_TIMEOUT, game, { p1 with death_type := c.PLAYER_TIMEOUT })
  else
    let p2 := press_buttons c p1 input
    let r := physics_sim c game p2.body (jump_pressed c input)
    let p3 : Player := { p2 with body := r.2 }
    if r.1 = c.PLAYER_DEAD then (c.PLAYER_DEAD, game, { p3 with death_type := c.PLAYER_DEAD })
    else if p3.body.py > (c.LEVEL_PIXEL_HEIGHT : ℚ) then
      (c.PLAYER_DEAD, game, { p3 with death_type := c.PLAYER_DEAD })
    else
      let l := enemies_loop c game p3 game.enemies
      let game1 : Game := { game with enemies := l.2 }
      if l.1 then (c.PLAYER_DEAD, game1, { p3 with death_type := c.PLAYER_DEAD })
      else
        let fitness := frame_fitness c p3
        let p4 : Player :=
          { p3 with fitness := if fitness > p3.fitness then fitness else p3.fitness }
        if p4.body.px + (c.PLAYER_RIGHT : ℚ) ≥ (((c.LEVEL_WIDTH - 4) * c.TILE_SIZE : Int) : ℚ) then
          (c.PLAYER_DEAD, game1, { p4 with death_type := c.PLAYER_COMPLETE })
        else (r.1, game1, p4)

/-- Player record after the physics call of line 83 (time advanced, buttons applied, body
replaced by the outcome of the physics step). -/
def player_after_physics (c : Config) (game : Game) (player : Player) (input : Nat → Nat) :
    Player :=
  { press_buttons c (advance_time c player) input with
    body := (player_physics c game player input).2 }

/-- Left operand of the hazard test at line 218: the tile `tile_at(game, tile_xl, feet_y)`
that `physics_sim` reads for the given body and jump input. -/
def foot_tile_left (c : Config) (game : Game) (body : Body) (jump : Bool) : Int :=
  tile_at c game (edge_tile_xl c (horizontal_step c game (jump_step c body jump)).1)
    (look_feet_y c (jump_step c body jump))

/-- Right operand of the hazard test at line 218: the tile `tile_at(game, tile_xr, feet_y)`
that `physics_sim` reads for the given body and jump input. -/
def foot_tile_right (c : Config) (game : Game) (body : Body) (jump : Bool) : Int :=
  tile_at c game (edge_tile_xr c (horizontal_step c game (jump_step c body jump)).1)
    (look_feet_y c (jump_step c body jump))

/-- Physics call of the enemy loop (lines 105-106): the horizontal velocity is set to the
direction, then `physics_sim` runs without jump. -/
def enemy_physics (c : Config) (game : Game) (enemy : Enemy) : Int × Body :=
  physics_sim c game { enemy.body with vx := (enemy.direction : ℚ) } false

/-! ## Sensory encoder -/

/-- Local variable `tile` of `get_input_tiles` for the window cell at tile position
`(x, y)` (lines 342-348). The variable has type `uint8_t`, hence the reduction modulo 256. -/
def input_tile (c : Config) (game : Game) (x y : Int) : Int :=
  if x < 0 ∨ x ≥ c.LEVEL_WIDTH then c.BRICKS % 256
  else if y < 0 ∨ y ≥ c.LEVEL_HEIGHT then c.EMPTY % 256
  else game.tiles (y * c.LEVEL_WIDTH + x) % 256

/-- Conversion `switch` of `get_input_tiles` (lines 351-377): the float stored through
`tmp`, or `none` when the `default` branch leaves the float as it was. The case labels of
a C `switch` are pairwise distinct, so the order of the tests is immaterial there. -/
def tile_to_input (c : Config) (tile : Int) : Option ℚ :=
  if tile = c.EMPTY ∨ tile = c.FLAG then some 0
  else if tile = c.PIPE_BOTTOM ∨ tile = c.PIPE_MIDDLE ∨ tile = c.PIPE_TOP ∨ tile = c.GRASS
      ∨ tile = c.DIRT ∨ tile = c.BRICKS then some (1 / 3)
  else if tile = c.SPIKES_TOP then some (2 / 3)
  else if tile = c.SPIKES_BOTTOM then some 1
  else none

/-- Outcome of one window cell of `get_input_tiles` (lines 342-379). -/
def input_cell (c : Config) (game : Game) (x y : Int) : Option ℚ :=
  tile_to_input c (input_tile c game x y)

/-- Exposes the tiles around the player (`get_input_tiles`, lines 323-382): the outcomes of
the cells in the order in which `tmp` visits them, one entry per execution of `tmp++`.
An entry `some v` is the float written to that position of the buffer `tiles`, an entry
`none` a position that is stepped over without a write. -/
def get_input_tiles (c : Config) (game : Game) (player : Player) (in_h in_w : Nat) :
    List (Option ℚ) :=
  let tile_x1 : Int := player.body.tile_x - ((in_w / 2 : Nat) : Int)
  let tile_x2 : Int := player.body.tile_x + ((in_w / 2 : Nat) : Int)
  let tile_y1 : Int := player.body.tile_y - ((in_h / 2 : Nat) : Int)
  let tile_y2 : Int := player.body.tile_y + ((in_h / 2 : Nat) : Int)
  (List.range (tile_y2 - tile_y1).toNat).flatMap fun (r : Nat) =>
    (List.range (tile_x2 - tile_x1).toNat).map fun (k : Nat) =>
      input_cell c game (tile_x1 + (k : Int)) (tile_y1 + (r : Int))

/-- The ten tile codes named in the `switch` of `get_input_tiles` are pairwise distinct, as
C demands of case labels, and fit the type `uint8_t` of the variable they are compared
with. -/
def tile_codes_ok (c : Config) : Prop :=
  List.Pairwise (fun a b => a ≠ b)
      [c.EMPTY, c.FLAG, c.PIPE_BOTTOM, c.PIPE_MIDDLE, c.PIPE_TOP, c.GRASS, c.DIRT, c.BRICKS,
        c.SPIKES_TOP, c.SPIKES_BOTTOM] ∧
    ∀ t ∈ [c.EMPTY, c.FLAG, c.PIPE_BOTTOM, c.PIPE_MIDDLE, c.PIPE_TOP, c.GRASS, c.DIRT, c.BRICKS,
        c.SPIKES_TOP, c.SPIKES_BOTTOM], 0 ≤ t ∧ t < 256

/-! ## Feed-forward evaluator -/

/-- Modelled from the spec: the decoded network of sections 3 and 4.1. The decoder and the
evaluator are not among the sources; only the layout comment of `neural_network.hpp` is.
The fields are the header sizes, the two mask matrices (one byte per cell, flattened
row-major) and the weight matrices: `w_in i j` joins input cell `i` to neuron `j` of the
first hidden layer, `w_hid l k j` joins neuron `k` of hidden layer `l` to neuron `j` of
layer `l + 1`, and `w_out k o` joins neuron `k` of the last hidden layer to output `o`. -/
structure Network where
  in_h : Nat
  in_w : Nat
  npl : Nat
  hlc : Nat
  input_act : Nat → Nat
  hidden_act : Nat → Nat → Nat
  w_in : Nat → Nat → ℚ
  w_hid : Nat → Nat → Nat → ℚ
  w_out : Nat → Nat → ℚ

/-- Modelled from the spec: activity of input cell `i` (section 4.1): a stored 0 means the
input tile is active, a stored 1 means it is inactive. -/
def input_active (net : Network) (i : Nat) : Bool := decide (net.input_act i = 0)

/-- Modelled from the spec: activity of neuron `j` of hidden layer `l` (section 4.1): a
stored 0 means the neuron is active, a stored 1 means it is inactive. -/
def hidden_active (net : Network) (l j : Nat) : Bool := decide (net.hidden_act l j = 0)

/-- Sum of `f 0, ..., f (n - 1)`. -/
def sum_upto (n : Nat) (f : Nat → ℚ) : ℚ := ((List.range n).map f).sum

/-- Modelled from the spec: term that input cell `i` adds to the sum of neuron `j` of the
first hidden layer; an inactive input cell counts as the input value zero (section 4.2). -/
def input_term (net : Network) (x : Nat → ℚ) (i j : Nat) : ℚ :=
  (if input_active net i then x i else 0) * net.w_in i j

/-- Modelled from the spec: output of neuron `j` of hidden layer `l` (section 4.2): the
weighted sum of the previous layer passed through the nonlinearity `act`, and zero for an
inactive neuron whatever the computed value. -/
def hidden_out (net : Network) (act : ℚ → ℚ) (x : Nat → ℚ) : Nat → Nat → ℚ
  | 0, j =>
    if hidden_active net 0 j then
      act (sum_upto (net.in_h * net.in_w) fun i => input_term net x i j)
    else 0
  | l + 1, j =>
    if hidden_active net (l + 1) j then
      act (sum_upto net.npl fun k => hidden_out net act x l k * net.w_hid l k j)
    else 0

/-- Modelled from the spec: output `o` of the feed-forward evaluator (section 4.2): the last
hidden layer multiplied through the hidden-to-output matrix, without mask or
nonlinearity. -/
def evaluate (net : Network) (act : ℚ → ℚ) (x : Nat → ℚ) (o : Nat) : ℚ :=
  sum_upto net.npl fun k => hidden_out net act x (net.hlc - 1) k * net.w_out k o

/-! ## Repeated frames -/

/-- One call of `game_update` on a game and player pair. -/
def frame (c : Config) (input : Nat → Nat) (s : Game × Player) : Int × Game × Player :=
  game_update c s.1 s.2 input

/-- Game and player after `n` successive calls of `game_update`, call `k` receiving the
button input `inputs k`. -/
def run (c : Config) (inputs : Nat → Nat → Nat) : Nat → Game × Player → Game × Player
  | 0, s => s
  | n + 1, s => (frame c (inputs n) (run c inputs n s)).2

/-- Return value of call number `n` (counted from 0) of a run of successive calls. -/
def run_result (c : Config) (inputs : Nat → Nat → Nat) (n : Nat) (s : Game × Player) : Int :=
  (frame c (inputs n) (run c inputs n s)).1

/-! ## Concrete instances used to evaluate the model -/

/-- A concrete choice of the header constants: 32-pixel tiles, a 256 x 32 level, a 24-pixel
wide player centred in its tile, 60 updates per second and a 60 second time limit. -/
def stdConfig : Config where
  TILE_SIZE := 32
  LEVEL_WIDTH := 256
  LEVEL_HEIGHT := 32
  LEVEL_PIXEL_HEIGHT := 1024
  SPAWN_X := 2
  SPAWN_Y := 2
  PLAYER_RIGHT := 28
  PLAYER_LEFT := 4
  PLAYER_MARGIN := 4
  V_X := 6
  V_JUMP := 8
  GRAVITY := 3 / 10
  INTERTA := 7 / 5
  UPDATES_PS := 60
  MAX_TIME := 60
  FIT_TIME_WEIGHT := 2
  FIT_BUTTONS_WEIGHT := 1 / 5
  EMPTY := 0
  PIPE_BOTTOM := 1
  PIPE_MIDDLE := 2
  PIPE_TOP := 3
  GRASS := 4
  DIRT := 5
  BRICKS := 6
  SPIKES_TOP := 7
  SPIKES_BOTTOM := 8
  FLAG := 9
  PLAYER_DEAD := 3
  PLAYER_TIMEOUT := 4
  PLAYER_COMPLETE := 5
  COL_RIGHT := 1
  COL_LEFT := 2
  BUTTON_RIGHT := 0
  BUTTON_LEFT := 1
  BUTTON_JUMP := 2

/-- A body at rest at pixel position `(px, py)`: not immune, all flags cleared. -/
def restBody (px py : ℚ) : Body where
  px := px
  py := py
  vx := 0
  vy := 0
  tile_x := 0
  tile_y := 0
  immune := false
  canjump := false
  isjump := false
  standing := false

/-- A player record with body `b` and all bookkeeping fields zero. -/
def freshPlayer (b : Body) : Player where
  body := b
  score := 0
  fitness := 0
  time := 0
  buttonpresses := 0
  death_type := 0

/-- The level whose tile array holds only `EMPTY` (code 0 in `stdConfig`), no enemies. -/
def emptyGame : Game where
  tiles := fun _ => 0
  enemies := []

/-- No button pressed. -/
def noInput : Nat → Nat := fun _ => 0

/-- A level with one row of `GRASS` (code 4 in `stdConfig`) at tile row 3, no enemies. -/
def floorGame : Game where
  tiles := fun i => if 768 ≤ i ∧ i < 1024 then 4 else 0
  enemies := []

/-- A player whose clock stands at `t`, all other bookkeeping fields zero. -/
def playerAtTime (b : Body) (t : ℚ) : Player where
  body := b
  score := 0
  fitness := 0
  time := t
  buttonpresses := 0
  death_type := 0

/-- Right and left pressed together (indices 0 and 1 in `stdConfig`), jump released. -/
def bothInput : Nat → Nat := fun i => if i = 0 ∨ i = 1 then 1 else 0

/-- A level whose only solid tile is a `BRICKS` tile (code 6) at column 2, row 2. -/
def wallGame : Game where
  tiles := fun i => if i = 514 then 6 else 0
  enemies := []

/-- A level whose only solid tile is a `SPIKES_TOP` tile (code 7) at column 2, row 3. -/
def spikeGame : Game where
  tiles := fun i => if i = 770 then 7 else 0
  enemies := []

/-- The level of `spikeGame` with one live, non-immune enemy right above the spike tile,
walking to the right. -/
def spikeEnemyGame : Game where
  tiles := fun i => if i = 770 then 7 else 0
  enemies := [{ body := restBody 64 64, direction := 1, dead := false }]

/-- A body about to cross the right edge of the level: moving right at `V_X` with its
look-ahead right edge in column 256. -/
def rightEdgeBody : Body := { restBody 8160 64 with vx := 6 }

/-- A body left of the level, moving left at `V_X`, with its look-ahead left edge in
column -1. -/
def leftEdgeBody : Body := { restBody (-30) 64 with vx := -6 }

/-- A body that stands and may jump. -/
def jumpBody : Body := { restBody 64 64 with canjump := true, standing := true }

/-- The level of `floorGame` with one enemy that is already dead. -/
def deadEnemyGame : Game where
  tiles := fun i => if 768 ≤ i ∧ i < 1024 then 4 else 0
  enemies := [{ body := restBody 94 64, direction := 1, dead := true }]

/-- The level of `floorGame` with one live enemy walking to the right on the grass row. -/
def walkerGame : Game where
  tiles := fun i => if 768 ≤ i ∧ i < 1024 then 4 else 0
  enemies := [{ body := restBody 256 64, direction := 1, dead := false }]

/-- A zero-preserving nonlinearity used to evaluate the network model. -/
def softsign (v : ℚ) : ℚ := v / (1 + |v|)

/-- A network with two input cells (mask bytes 0 and 1) and two hidden neurons (mask bytes
0 and 1), all weights 1: the second input cell and the second neuron are inactive. -/
def maskedNet : Network where
  in_h := 1
  in_w := 2
  npl := 2
  hlc := 1
  input_act := fun i => if i = 0 then 0 else 1
  hidden_act := fun _ j => if j = 0 then 0 else 1
  w_in := fun _ _ => 1
  w_hid := fun _ _ _ => 0
  w_out := fun _ _ => 1

/-- The input vector with every cell equal to 1. -/
def unitInput : Nat → ℚ := fun _ => 1

/-- Only the left button pressed (index 1 in `stdConfig`). -/
def leftInput : Nat → Nat := fun i => if i = 1 then 1 else 0

/-- A body with the horizontal velocity `2 ^ 40`. -/
def fastBody : Body := { restBody 64 64 with vx := 1099511627776 }

/-- A body moving left at `-6419853 / 2 ^ 21`, about -3.06: the `float` value of `-V_X`
after two divisions by `INTERTA` in `stdConfig`. -/
def decayedBody : Body := { restBody 64 64 with vx := -6419853 / 2097152 }

/-! ## Theorems -/

/-- C1. Fitness ratchet: whatever the game, the player and the button input, the fitness
stored in the player after one call of `game_update` is at least the fitness stored before
the call. The statement covers every return path, since it is about the value of the call. -/
theorem game_update_fitness_ratchet (c : Config) (game : Game) (player : Player)
    (input : Nat → Nat) :
    player.fitness ≤ (game_update c game player input).2.2.fitness := by
  unfold game_update
  simp only []
  split_ifs <;> first | exact le_refl _ | exact le_of_lt (by assumption)

/-- After the bottom collision, `standing` comes with `vy = 0` and `canjump`. -/
theorem bottom_collision_standing (c : Config) (game : Game) (xl xr fy : Int) (b : Body) :
    (bottom_collision c game xl xr fy b).2.standing = true →
      (bottom_collision c game xl xr fy b).2.vy = 0 ∧
        (bottom_collision c game xl xr fy b).2.canjump = true := by
  unfold bottom_collision
  simp only []
  split_ifs <;> simp

/-- The top collision preserves the link between `standing`, `vy = 0` and `canjump`. -/
theorem top_collision_standing (c : Config) (game : Game) (xl xr ty : Int) (b : Body)
    (h : b.standing = true → b.vy = 0 ∧ b.canjump = true) :
    (top_collision c game xl xr ty b).2.standing = true →
      (top_collision c game xl xr ty b).2.vy = 0 ∧
        (top_collision c game xl xr ty b).2.canjump = true := by
  unfold top_collision
  simp only []
  split_ifs <;> simp <;> intro hs <;> simp_all

/-- C2. In the body state left by `physics_sim`, also when it returns `PLAYER_DEAD`,
`standing == true` implies `vy == 0` and `canjump == true`. -/
theorem physics_sim_standing (c : Config) (game : Game) (body : Body) (jump : Bool) :
    (physics_sim c game body jump).2.standing = true →
      (physics_sim c game body jump).2.vy = 0 ∧
        (physics_sim c game body jump).2.canjump = true := by
  unfold physics_sim
  simp only []
  split_ifs
  · exact bottom_collision_standing _ _ _ _ _ _
  · exact top_collision_standing _ _ _ _ _ _ (bottom_collision_standing _ _ _ _ _ _)
  · simp only [apply_velocity]
    exact top_collision_standing _ _ _ _ _ _ (bottom_collision_standing _ _ _ _ _ _)

/-- Witness of C2: a body at rest one tile above a grass row ends the frame standing, with
zero vertical velocity and able to jump. -/
theorem physics_sim_standing_witness :
    (physics_sim stdConfig floorGame (restBody 64 64) false).2.standing = true ∧
      (physics_sim stdConfig floorGame (restBody 64 64) false).2.vy = 0 ∧
        (physics_sim stdConfig floorGame (restBody 64 64) false).2.canjump = true :=
  ⟨by decide!, physics_sim_standing stdConfig floorGame (restBody 64 64) false (by decide!)⟩

/-- C4. Tile-solidity predicate, with `EMPTY` the code 0 that `tile_at` returns out of
bounds and the two spike codes different from `EMPTY` and `FLAG`: `tile_solid` is false
exactly when the position is outside the grid or the stored tile is `EMPTY` or `FLAG`;
an in-bounds `SPIKES_TOP` or `SPIKES_BOTTOM` tile is solid; an out-of-bounds `tile_at`
query returns `EMPTY`. -/
theorem tile_solid_iff (c : Config) (game : Game) (x y : Int)
    (hE : c.EMPTY = 0)
    (hT : c.SPIKES_TOP ≠ c.EMPTY ∧ c.SPIKES_TOP ≠ c.FLAG)
    (hB : c.SPIKES_BOTTOM ≠ c.EMPTY ∧ c.SPIKES_BOTTOM ≠ c.FLAG) :
    (tile_solid c game x y = false ↔
        ((x < 0 ∨ x ≥ c.LEVEL_WIDTH ∨ y < 0 ∨ y ≥ c.LEVEL_HEIGHT) ∨
          game.tiles (y * c.LEVEL_WIDTH + x) = c.EMPTY ∨
          game.tiles (y * c.LEVEL_WIDTH + x) = c.FLAG)) ∧
      (¬(x < 0 ∨ x ≥ c.LEVEL_WIDTH ∨ y < 0 ∨ y ≥ c.LEVEL_HEIGHT) →
        (game.tiles (y * c.LEVEL_WIDTH + x) = c.SPIKES_TOP ∨
          game.tiles (y * c.LEVEL_WIDTH + x) = c.SPIKES_BOTTOM) →
        tile_solid c game x y = true) ∧
      ((x < 0 ∨ x ≥ c.LEVEL_WIDTH ∨ y < 0 ∨ y ≥ c.LEVEL_HEIGHT) →
        tile_at c game x y = c.EMPTY) := by
  unfold tile_solid tile_at
  by_cases hb : x < 0 ∨ x ≥ c.LEVEL_WIDTH ∨ y < 0 ∨ y ≥ c.LEVEL_HEIGHT
  · simp [hb, hE]
  · simp only [hb, if_false, false_or, not_false_eq_true, true_implies, false_implies, and_true]
    constructor
    · split_ifs with h <;> simp [h]
    · rintro (h | h) <;> simp [h, hT.1, hT.2, hB.1, hB.2]

/-- Witness of C4: in `stdConfig` the query at column -1, row 3 is out of bounds: it is
characterised as non-solid and `tile_at` answers `EMPTY`. -/
theorem tile_solid_iff_witness :
    (tile_solid stdConfig floorGame (-1) 3 = false ↔
        (((-1 : Int) < 0 ∨ (-1 : Int) ≥ stdConfig.LEVEL_WIDTH ∨ (3 : Int) < 0 ∨
            (3 : Int) ≥ stdConfig.LEVEL_HEIGHT) ∨
          floorGame.tiles (3 * stdConfig.LEVEL_WIDTH + -1) = stdConfig.EMPTY ∨
          floorGame.tiles (3 * stdConfig.LEVEL_WIDTH + -1) = stdConfig.FLAG)) ∧
      tile_at stdConfig floorGame (-1) 3 = stdConfig.EMPTY :=
  ⟨(tile_solid_iff stdConfig floorGame (-1) 3 rfl (by decide) (by decide)).1,
    (tile_solid_iff stdConfig floorGame (-1) 3 rfl (by decide) (by decide)).2.2
      (Or.inl (by decide))⟩

/-- C6. Timeout: with a positive update rate, if the elapsed time advanced by one tick has
reached `MAX_TIME`, `game_update` returns `PLAYER_TIMEOUT`, the game (every enemy
included) is returned as it was, and the player differs from the input player only in
`time`, advanced by the tick, and `death_type`, set to `PLAYER_TIMEOUT`: body,
buttonpresses, score and fitness are unchanged. -/
theorem game_update_timeout (c : Config) (game : Game) (player : Player) (input : Nat → Nat)
    (hU : 0 < c.UPDATES_PS)
    (hT : player.time + 1 / (c.UPDATES_PS : ℚ) ≥ c.MAX_TIME) :
    game_update c game player input =
      (c.PLAYER_TIMEOUT, game,
        { player with
          time := player.time + 1 / (c.UPDATES_PS : ℚ)
          death_type := c.PLAYER_TIMEOUT }) := by
  have hU' : (0 : ℚ) < (c.UPDATES_PS : ℚ) := by exact_mod_cast hU
  have htick : (0 : ℚ) ≤ 1 / (c.UPDATES_PS : ℚ) := le_of_lt (one_div_pos.mpr hU')
  have hcond : player.time + 1 / (c.UPDATES_PS : ℚ) ≥ c.MAX_TIME - 1 / (c.UPDATES_PS : ℚ) := by
    linarith
  unfold game_update advance_time
  simp only [hcond, if_true]

/-- Witness of C6: a player whose clock stands at 60 seconds times out on the next call. -/
theorem game_update_timeout_witness :
    game_update stdConfig floorGame (playerAtTime (restBody 64 64) 60) noInput =
      (stdConfig.PLAYER_TIMEOUT, floorGame,
        { playerAtTime (restBody 64 64) 60 with
          time := (playerAtTime (restBody 64 64) 60).time + 1 / (stdConfig.UPDATES_PS : ℚ)
          death_type := stdConfig.PLAYER_TIMEOUT }) :=
  game_update_timeout stdConfig floorGame (playerAtTime (restBody 64 64) 60) noInput
    (by decide) (by decide!)

/-! ### Right collision (C3) -/

/-- Truncation toward zero is monotone. -/
theorem ftoi_mono {a b : ℚ} (h : a ≤ b) : ftoi a ≤ ftoi b := by
  unfold ftoi
  split_ifs with ha hb hb
  · exact Int.floor_mono h
  · exact absurd (le_trans ha h) hb
  · have h1 : ⌈a⌉ ≤ 0 := by
      rw [Int.ceil_le]; push_cast; linarith
    have h2 : 0 ≤ ⌊b⌋ := Int.floor_nonneg.mpr hb
    omega
  · exact Int.ceil_mono h

/-- Rounding leaves an integer value unchanged. -/
theorem cround_intCast (n : Int) : cround (n : ℚ) = (n : ℚ) := by
  unfold cround
  split_ifs with h
  · have : ⌊(n : ℚ) + 1 / 2⌋ = n := by
      rw [Int.floor_eq_iff]; constructor <;> linarith
    rw [this]
  · have : ⌈(n : ℚ) - 1 / 2⌉ = n := by
      rw [Int.ceil_eq_iff]; constructor <;> linarith
    rw [this]

/-- The look-ahead left-edge column is never to the right of the right-edge column. -/
theorem look_left_le_right (c : Config) (b : Body) (hTS : 0 < c.TILE_SIZE)
    (hLR : c.PLAYER_LEFT ≤ c.PLAYER_RIGHT + 2) : look_left_x c b ≤ look_right_x c b := by
  unfold look_left_x look_right_x
  apply ftoi_mono
  have hTS' : (0 : ℚ) < (c.TILE_SIZE : ℚ) := by exact_mod_cast hTS
  have hLR' : (c.PLAYER_LEFT : ℚ) ≤ (c.PLAYER_RIGHT : ℚ) + 2 := by exact_mod_cast hLR
  apply div_le_div_of_nonneg_right _ (le_of_lt hTS')
  linarith

/-- Outcome of the horizontal phase when the look-ahead right-edge tile is solid. -/
theorem horizontal_step_right_solid (c : Config) (game : Game) (b : Body)
    (hTS : 0 < c.TILE_SIZE) (hM : 2 < c.PLAYER_MARGIN) (hM2 : c.PLAYER_MARGIN < c.TILE_SIZE + 2)
    (hLR : c.PLAYER_LEFT ≤ c.PLAYER_RIGHT + 2)
    (hs : tile_solid c game (look_right_x c b) (look_tile_y c b) = true) :
    (horizontal_step c game b).1.vx = 0 ∧
      ∃ n : Int, (horizontal_step c game b).1.px = (n : ℚ) ∧
        (look_left_x c b ≠ look_right_x c b → n < look_right_x c b * c.TILE_SIZE) := by
  have hle := look_left_le_right c b hTS hLR
  unfold horizontal_step left_collision right_collision
  simp only [hs, Bool.true_or, if_true]
  split_ifs with hl
  · refine ⟨rfl, _, rfl, fun hne => ?_⟩
    have hlt : look_left_x c b + 1 ≤ look_right_x c b := by omega
    nlinarith
  · refine ⟨rfl, _, rfl, fun _ => ?_⟩
    nlinarith

/-- The bottom collision leaves `px` and `vx` alone. -/
theorem bottom_collision_px_vx (c : Config) (game : Game) (xl xr fy : Int) (b : Body) :
    (bottom_collision c game xl xr fy b).2.px = b.px ∧
      (bottom_collision c game xl xr fy b).2.vx = b.vx := by
  unfold bottom_collision
  simp only []
  split_ifs <;> exact ⟨rfl, rfl⟩

/-- The top collision leaves `px` and `vx` alone. -/
theorem top_collision_px_vx (c : Config) (game : Game) (xl xr ty : Int) (b : Body) :
    (top_collision c game xl xr ty b).2.px = b.px ∧
      (top_collision c game xl xr ty b).2.vx = b.vx := by
  unfold top_collision
  simp only []
  split_ifs <;> exact ⟨rfl, rfl⟩

/-- C3 (amended). For a positive tile size, a margin with `2 < PLAYER_MARGIN < TILE_SIZE + 2`
and `PLAYER_LEFT ≤ PLAYER_RIGHT + 2`: when the look-ahead right-edge tile (column `right_x`,
row `tile_y`, computed after jump handling) is solid, the state after `physics_sim` has
`vx == 0`, and `px` is strictly less than `right_x * TILE_SIZE` provided the look-ahead
left-edge column `left_x` differs from `right_x`; this covers the frames in which the
left-collision check fires on another column. -/
theorem physics_sim_right_collision (c : Config) (game : Game) (body : Body) (jump : Bool)
    (hTS : 0 < c.TILE_SIZE) (hM : 2 < c.PLAYER_MARGIN) (hM2 : c.PLAYER_MARGIN < c.TILE_SIZE + 2)
    (hLR : c.PLAYER_LEFT ≤ c.PLAYER_RIGHT + 2)
    (hs : tile_solid c game (look_right_x c (jump_step c body jump))
      (look_tile_y c (jump_step c body jump)) = true) :
    (physics_sim c game body jump).2.vx = 0 ∧
      (look_left_x c (jump_step c body jump) ≠ look_right_x c (jump_step c body jump) →
        (physics_sim c game body jump).2.px
          < ((look_right_x c (jump_step c body jump) * c.TILE_SIZE : Int) : ℚ)) := by
  obtain ⟨hvx, n, hpx, hn⟩ :=
    horizontal_step_right_solid c game (jump_step c body jump) hTS hM hM2 hLR hs
  have hb := bottom_collision_px_vx c game
    (edge_tile_xl c (horizontal_step c game (jump_step c body jump)).1)
    (edge_tile_xr c (horizontal_step c game (jump_step c body jump)).1)
    (look_feet_y c (jump_step c body jump)) (horizontal_step c game (jump_step c body jump)).1
  have ht := top_collision_px_vx c game
    (edge_tile_xl c (horizontal_step c game (jump_step c body jump)).1)
    (edge_tile_xr c (horizontal_step c game (jump_step c body jump)).1)
    (look_top_y c (jump_step c body jump))
    (bottom_collision c game
      (edge_tile_xl c (horizontal_step c game (jump_step c body jump)).1)
      (edge_tile_xr c (horizontal_step c game (jump_step c body jump)).1)
      (look_feet_y c (jump_step c body jump)) (horizontal_step c game (jump_step c body jump)).1).2
  unfold physics_sim
  simp only []
  split_ifs
  · rw [hb.1, hb.2, hvx, hpx]
    exact ⟨rfl, fun hne => by exact_mod_cast hn hne⟩
  · rw [ht.1, ht.2, hb.1, hb.2, hvx, hpx]
    exact ⟨rfl, fun hne => by exact_mod_cast hn hne⟩
  · simp only [apply_velocity]
    rw [ht.1, ht.2, hb.1, hb.2, hvx, hpx, add_zero, cround_intCast]
    exact ⟨rfl, fun hne => by exact_mod_cast hn hne⟩

/-- Witness of C3 (amended): a body whose right edge looks into the brick tile at column 2
while its left edge is still in column 1 is stopped, with `px` left of the tile. -/
theorem physics_sim_right_collision_witness :
    (physics_sim stdConfig wallGame (restBody 40 64) false).2.vx = 0 ∧
      (physics_sim stdConfig wallGame (restBody 40 64) false).2.px
        < ((look_right_x stdConfig (jump_step stdConfig (restBody 40 64) false)
            * stdConfig.TILE_SIZE : Int) : ℚ) :=
  ⟨(physics_sim_right_collision stdConfig wallGame (restBody 40 64) false
      (by decide) (by decide) (by decide) (by decide) (by decide!)).1,
    (physics_sim_right_collision stdConfig wallGame (restBody 40 64) false
      (by decide) (by decide) (by decide) (by decide) (by decide!)).2 (by decide!)⟩

/-- C3 (counterexample). A body at rest at `px = 64` whose two look-ahead edges both fall in
the solid tile of column 2: the right tile is solid, the right check snaps `px` to 34, the
left check fires on the same tile and snaps `px` to 94, which is not left of
`right_x * TILE_SIZE = 64`. -/
theorem right_collision_claim_fails :
    tile_solid stdConfig wallGame
        (look_right_x stdConfig (jump_step stdConfig (restBody 64 64) false))
        (look_tile_y stdConfig (jump_step stdConfig (restBody 64 64) false)) = true ∧
      (physics_sim stdConfig wallGame (restBody 64 64) false).2.px = 94 ∧
      ¬ ((physics_sim stdConfig wallGame (restBody 64 64) false).2.vx = 0 ∧
        (physics_sim stdConfig wallGame (restBody 64 64) false).2.px
          < ((look_right_x stdConfig (jump_step stdConfig (restBody 64 64) false)
              * stdConfig.TILE_SIZE : Int) : ℚ)) := by
  decide!

/-! ### Spike-top death (C5) -/

/-- Jump handling does not touch `immune`. -/
theorem jump_step_immune (c : Config) (body : Body) (jump : Bool) :
    (jump_step c body jump).immune = body.immune := by
  unfold jump_step
  simp only []
  split_ifs <;> rfl

/-- The horizontal phase keeps `immune` and adds `GRAVITY` to `vy`. -/
theorem horizontal_step_immune_vy (c : Config) (game : Game) (b : Body) :
    (horizontal_step c game b).1.immune = b.immune ∧
      (horizontal_step c game b).1.vy = b.vy + c.GRAVITY := by
  unfold horizontal_step left_collision right_collision integrate_velocity
  split_ifs <;> exact ⟨rfl, rfl⟩

/-- A non-immune body moving down onto a `SPIKES_TOP` foot tile makes `physics_sim` return
`PLAYER_DEAD`. -/
theorem physics_sim_spike_top (c : Config) (game : Game) (body : Body) (jump : Bool)
    (hne : c.SPIKES_TOP ≠ c.EMPTY) (hnf : c.SPIKES_TOP ≠ c.FLAG)
    (himm : body.immune = false)
    (hvy : (jump_step c body jump).vy + c.GRAVITY ≥ 0)
    (hsp : foot_tile_left c game body jump = c.SPIKES_TOP ∨
      foot_tile_right c game body jump = c.SPIKES_TOP) :
    (physics_sim c game body jump).1 = c.PLAYER_DEAD := by
  have hi := (horizontal_step_immune_vy c game (jump_step c body jump)).1
  have hv := (horizontal_step_immune_vy c game (jump_step c body jump)).2
  rw [jump_step_immune, himm] at hi
  have hbot : (bottom_collision c game
      (edge_tile_xl c (horizontal_step c game (jump_step c body jump)).1)
      (edge_tile_xr c (horizontal_step c game (jump_step c body jump)).1)
      (look_feet_y c (jump_step c body jump))
      (horizontal_step c game (jump_step c body jump)).1).1 = true := by
    unfold foot_tile_left foot_tile_right at hsp
    unfold bottom_collision tile_solid
    simp only [hi, hv]
    rcases hsp with h | h
    · simp [h, hne, hnf, hvy]
    · simp [h, hne, hnf, hvy]
  unfold physics_sim
  simp only [hbot, if_true]

/-- C5. Spike-top death, with `SPIKES_TOP` different from `EMPTY` and `FLAG`: for every
non-immune body with `vy + GRAVITY >= 0` after jump handling and with a `SPIKES_TOP` tile
under its left or right foot (columns taken from the position after the horizontal
collisions, row `feet_y`), `physics_sim` returns `PLAYER_DEAD`; and when that body is the
player's, on a frame that has not timed out, `game_update` returns `PLAYER_DEAD` with
`death_type` set to `PLAYER_DEAD`. -/
theorem spike_top_death (c : Config) (game : Game)
    (hne : c.SPIKES_TOP ≠ c.EMPTY) (hnf : c.SPIKES_TOP ≠ c.FLAG) :
    (∀ (body : Body) (jump : Bool), body.immune = false →
        (jump_step c body jump).vy + c.GRAVITY ≥ 0 →
        (foot_tile_left c game body jump = c.SPIKES_TOP ∨
          foot_tile_right c game body jump = c.SPIKES_TOP) →
        (physics_sim c game body jump).1 = c.PLAYER_DEAD) ∧
      (∀ (player : Player) (input : Nat → Nat),
        ¬ ((advance_time c player).time ≥ c.MAX_TIME - 1 / (c.UPDATES_PS : ℚ)) →
        player.body.immune = false →
        (jump_step c (press_buttons c (advance_time c player) input).body
          (jump_pressed c input)).vy + c.GRAVITY ≥ 0 →
        (foot_tile_left c game (press_buttons c (advance_time c player) input).body
            (jump_pressed c input) = c.SPIKES_TOP ∨
          foot_tile_right c game (press_buttons c (advance_time c player) input).body
            (jump_pressed c input) = c.SPIKES_TOP) →
        (game_update c game player input).1 = c.PLAYER_DEAD ∧
          (game_update c game player input).2.2.death_type = c.PLAYER_DEAD) := by
  refine ⟨fun body jump himm hvy hsp => physics_sim_spike_top c game body jump hne hnf himm hvy hsp,
    fun player input hT himm hvy hsp => ?_⟩
  have hd := physics_sim_spike_top c game (press_buttons c (advance_time c player) input).body
    (jump_pressed c input) hne hnf himm hvy hsp
  unfold game_update
  simp only [hT, if_false, hd, if_true, and_self]

/-- Witness of C5: a player at rest one tile above the spike tile of `spikeGame` dies on
the first frame. -/
theorem spike_top_death_witness :
    (physics_sim stdConfig spikeGame (restBody 64 64) false).1 = stdConfig.PLAYER_DEAD ∧
      (game_update stdConfig spikeGame (freshPlayer (restBody 64 64)) noInput).1
        = stdConfig.PLAYER_DEAD ∧
      (game_update stdConfig spikeGame (freshPlayer (restBody 64 64)) noInput).2.2.death_type
        = stdConfig.PLAYER_DEAD :=
  ⟨(spike_top_death stdConfig spikeGame (by decide) (by decide)).1 (restBody 64 64) false rfl
      (by decide!) (by decide!),
    (spike_top_death stdConfig spikeGame (by decide) (by decide)).2 (freshPlayer (restBody 64 64))
      noInput (by decide!) rfl (by decide!) (by decide!)⟩

/-! ### Empty level (C7) -/

/-- In a level holding only `EMPTY` tiles no tile is solid. -/
theorem tile_solid_of_empty (c : Config) (game : Game) (hE : c.EMPTY = 0)
    (htiles : ∀ i, game.tiles i = c.EMPTY) (x y : Int) : tile_solid c game x y = false := by
  unfold tile_solid tile_at
  split_ifs <;> simp_all

/-- In a level holding only `EMPTY` tiles `physics_sim` returns 0, `COL_RIGHT` or `COL_LEFT`. -/
theorem physics_sim_code_of_empty (c : Config) (game : Game) (hE : c.EMPTY = 0)
    (htiles : ∀ i, game.tiles i = c.EMPTY) (body : Body) (jump : Bool) :
    (physics_sim c game body jump).1 = 0 ∨ (physics_sim c game body jump).1 = c.COL_RIGHT ∨
      (physics_sim c game body jump).1 = c.COL_LEFT := by
  unfold physics_sim bottom_collision top_collision horizontal_step left_collision
    right_collision
  simp only [tile_solid_of_empty c game hE htiles, Bool.false_or, Bool.or_self,
    Bool.false_eq_true, if_false]
  split_ifs <;> simp

/-- Every call of `game_update` advances the elapsed time by one tick. -/
theorem game_update_time (c : Config) (game : Game) (player : Player) (input : Nat → Nat) :
    (game_update c game player input).2.2.time = player.time + 1 / (c.UPDATES_PS : ℚ) := by
  unfold game_update advance_time press_buttons
  simp only []
  split_ifs <;> rfl

/-- Without enemies `game_update` returns the game unchanged. -/
theorem game_update_game_of_no_enemies (c : Config) (game : Game) (player : Player)
    (input : Nat → Nat) (hen : game.enemies = []) :
    (game_update c game player input).2.1 = game := by
  obtain ⟨tiles, enemies⟩ := game
  simp only at hen
  subst hen
  unfold game_update
  simp only [enemies_loop]
  split_ifs <;> rfl

/-- Without enemies a run keeps the game, and `n` calls advance the time by `n` ticks. -/
theorem run_of_no_enemies (c : Config) (inputs : Nat → Nat → Nat) (game : Game)
    (player : Player) (hen : game.enemies = []) (n : Nat) :
    (run c inputs n (game, player)).1 = game ∧
      (run c inputs n (game, player)).2.time = player.time + (n : ℚ) * (1 / (c.UPDATES_PS : ℚ)) := by
  induction n with
  | zero => simp [run]
  | succ n ih =>
    simp only [run, frame]
    rw [ih.1]
    refine ⟨game_update_game_of_no_enemies c game _ _ hen, ?_⟩
    rw [game_update_time, ih.2]
    push_cast
    ring

/-- A call whose advanced time has reached `MAX_TIME` less one tick returns `PLAYER_TIMEOUT`. -/
theorem game_update_timeout_code (c : Config) (game : Game) (player : Player)
    (input : Nat → Nat)
    (hT : player.time + 1 / (c.UPDATES_PS : ℚ) ≥ c.MAX_TIME - 1 / (c.UPDATES_PS : ℚ)) :
    (game_update c game player input).1 = c.PLAYER_TIMEOUT := by
  unfold game_update advance_time
  simp only [hT, if_true]

/-- In an empty level without enemies a `PLAYER_DEAD` return comes from the time limit (when the
codes coincide), the lower bound or the completion check. -/
theorem game_update_dead_of_empty (c : Config) (game : Game) (player : Player)
    (input : Nat → Nat) (hE : c.EMPTY = 0) (htiles : ∀ i, game.tiles i = c.EMPTY)
    (hen : game.enemies = [])
    (h0 : c.PLAYER_DEAD ≠ 0) (hR : c.PLAYER_DEAD ≠ c.COL_RIGHT) (hL : c.PLAYER_DEAD ≠ c.COL_LEFT)
    (hd : (game_update c game player input).1 = c.PLAYER_DEAD) :
    (game_update c game player input).1 = c.PLAYER_TIMEOUT ∨
      (game_update c game player input).2.2.body.py > (c.LEVEL_PIXEL_HEIGHT : ℚ) ∨
      (game_update c game player input).2.2.body.px + (c.PLAYER_RIGHT : ℚ)
        ≥ (((c.LEVEL_WIDTH - 4) * c.TILE_SIZE : Int) : ℚ) := by
  have hcode := physics_sim_code_of_empty c game hE htiles
    (press_buttons c (advance_time c player) input).body (jump_pressed c input)
  have hne : (physics_sim c game (press_buttons c (advance_time c player) input).body
      (jump_pressed c input)).1 ≠ c.PLAYER_DEAD := by
    rcases hcode with h | h | h <;> rw [h] <;> intro h' <;> simp_all
  revert hd
  unfold game_update
  simp only [hen, enemies_loop, hne, if_false, Bool.false_eq_true]
  split_ifs <;> intro hd
  all_goals first
    | exact Or.inl rfl
    | exact Or.inr (Or.inl (by assumption))
    | exact Or.inr (Or.inr (by assumption))
    | exact absurd hd hne

/-- C7 (amended). With a positive update rate, `EMPTY = 0` and `PLAYER_DEAD` different from
0, `COL_RIGHT` and `COL_LEFT`: in a level holding only `EMPTY` tiles and no enemies, a
player initialised by `player_setup` and advanced by repeated `game_update` calls with any
button inputs reaches a first terminal call; that call returns `PLAYER_TIMEOUT`, or it
returns `PLAYER_DEAD` with the player below `LEVEL_PIXEL_HEIGHT` or at the completion
margin (never through a death reported by the physics step); no earlier call returns
`PLAYER_TIMEOUT` or `PLAYER_DEAD`. -/
theorem empty_level_run_terminates (c : Config) (game : Game) (player : Player)
    (inputs : Nat → Nat → Nat)
    (hU : 0 < c.UPDATES_PS) (hE : c.EMPTY = 0)
    (h0 : c.PLAYER_DEAD ≠ 0) (hR : c.PLAYER_DEAD ≠ c.COL_RIGHT) (hL : c.PLAYER_DEAD ≠ c.COL_LEFT)
    (htiles : ∀ i, game.tiles i = c.EMPTY) (hen : game.enemies = []) :
    ∃ n : Nat,
      (run_result c inputs n (game, player_setup c player) = c.PLAYER_TIMEOUT ∨
        (run_result c inputs n (game, player_setup c player) = c.PLAYER_DEAD ∧
          ((run c inputs (n + 1) (game, player_setup c player)).2.body.py
              > (c.LEVEL_PIXEL_HEIGHT : ℚ) ∨
            (run c inputs (n + 1) (game, player_setup c player)).2.body.px
              + (c.PLAYER_RIGHT : ℚ) ≥ (((c.LEVEL_WIDTH - 4) * c.TILE_SIZE : Int) : ℚ)))) ∧
      ∀ k, k < n →
        run_result c inputs k (game, player_setup c player) ≠ c.PLAYER_TIMEOUT ∧
          run_result c inputs k (game, player_setup c player) ≠ c.PLAYER_DEAD := by
  classical
  have hU' : (0 : ℚ) < (c.UPDATES_PS : ℚ) := by exact_mod_cast hU
  have htick : (0 : ℚ) < 1 / (c.UPDATES_PS : ℚ) := one_div_pos.mpr hU'
  -- the time limit is reached after finitely many calls
  obtain ⟨N, hN⟩ := Archimedean.arch (c.MAX_TIME - (player_setup c player).time) htick
  have hex : ∃ n, run_result c inputs n (game, player_setup c player) = c.PLAYER_TIMEOUT ∨
      run_result c inputs n (game, player_setup c player) = c.PLAYER_DEAD := by
    refine ⟨N, Or.inl ?_⟩
    have hr := run_of_no_enemies c inputs game (player_setup c player) hen N
    unfold run_result frame
    apply game_update_timeout_code
    rw [hr.2]
    rw [nsmul_eq_mul] at hN
    linarith
  refine ⟨Nat.find hex, ?_, fun k hk => ?_⟩
  · rcases Nat.find_spec hex with h | h
    · exact Or.inl h
    · have hr := run_of_no_enemies c inputs game (player_setup c player) hen (Nat.find hex)
      have hg : (run c inputs (Nat.find hex) (game, player_setup c player)).1 = game := hr.1
      have hd := game_update_dead_of_empty c game
        (run c inputs (Nat.find hex) (game, player_setup c player)).2
        (inputs (Nat.find hex)) hE htiles hen h0 hR hL
      unfold run_result frame at h
      rw [hg] at h
      rcases hd h with h' | h'
      · left; unfold run_result frame; rw [hg]; exact h'
      · right
        refine ⟨by unfold run_result frame; rw [hg]; exact h, ?_⟩
        simp only [run, frame]
        rw [hg]
        exact h'
  · have := Nat.find_min hex hk
    push_neg at this
    exact this

/-- Witness of C7 (amended): the run of a freshly set up player in `emptyGame` under
`stdConfig`, no button pressed. -/
theorem empty_level_run_terminates_witness :
    ∃ n : Nat,
      (run_result stdConfig (fun _ => noInput) n
            (emptyGame, player_setup stdConfig (freshPlayer (restBody 0 0)))
          = stdConfig.PLAYER_TIMEOUT ∨
        (run_result stdConfig (fun _ => noInput) n
              (emptyGame, player_setup stdConfig (freshPlayer (restBody 0 0)))
            = stdConfig.PLAYER_DEAD ∧
          ((run stdConfig (fun _ => noInput) (n + 1)
                (emptyGame, player_setup stdConfig (freshPlayer (restBody 0 0)))).2.body.py
              > (stdConfig.LEVEL_PIXEL_HEIGHT : ℚ) ∨
            (run stdConfig (fun _ => noInput) (n + 1)
                (emptyGame, player_setup stdConfig (freshPlayer (restBody 0 0)))).2.body.px
              + (stdConfig.PLAYER_RIGHT : ℚ)
              ≥ (((stdConfig.LEVEL_WIDTH - 4) * stdConfig.TILE_SIZE : Int) : ℚ)))) ∧
      ∀ k, k < n →
        run_result stdConfig (fun _ => noInput) k
            (emptyGame, player_setup stdConfig (freshPlayer (restBody 0 0)))
          ≠ stdConfig.PLAYER_TIMEOUT ∧
        run_result stdConfig (fun _ => noInput) k
            (emptyGame, player_setup stdConfig (freshPlayer (restBody 0 0)))
          ≠ stdConfig.PLAYER_DEAD :=
  empty_level_run_terminates stdConfig emptyGame (freshPlayer (restBody 0 0)) (fun _ => noInput)
    (by decide) rfl (by decide) (by decide) (by decide) (fun _ => rfl) rfl

set_option maxRecDepth 100000 in
/-- Under `stdConfig` the freshly set up player of `emptyGame` falls for 80 frames: call
number 80 returns `PLAYER_DEAD`, and none of the calls 0 to 80 returns `PLAYER_TIMEOUT`. -/
theorem empty_level_falls :
    run_result stdConfig (fun _ => noInput) 80
        (emptyGame, player_setup stdConfig (freshPlayer (restBody 0 0))) = stdConfig.PLAYER_DEAD ∧
      ∀ k, k < 81 → run_result stdConfig (fun _ => noInput) k
        (emptyGame, player_setup stdConfig (freshPlayer (restBody 0 0)))
          ≠ stdConfig.PLAYER_TIMEOUT := by
  decide!

/-- C7 (counterexample). Under `stdConfig`, with no button pressed, no call of the run in the
empty level returns `PLAYER_TIMEOUT` without an earlier call returning `PLAYER_DEAD`: the
player falls below the level at call 80, long before the time limit. -/
theorem empty_level_claim_fails :
    ¬ ∃ n : Nat,
      run_result stdConfig (fun _ => noInput) n
          (emptyGame, player_setup stdConfig (freshPlayer (restBody 0 0)))
        = stdConfig.PLAYER_TIMEOUT ∧
      ∀ k, k < n →
        run_result stdConfig (fun _ => noInput) k
            (emptyGame, player_setup stdConfig (freshPlayer (restBody 0 0)))
          ≠ stdConfig.PLAYER_DEAD := by
  rintro ⟨n, hn, hk⟩
  by_cases hle : n < 81
  · exact empty_level_falls.2 n hle hn
  · exact hk 80 (by omega) empty_level_falls.1

/-! ### Enemy contact (C8) -/

/-- The test `dist_lt` is the comparison `sqrt((x2 - x1)^2 + (y2 - y1)^2) < r` of the source,
for a positive radius. -/
theorem dist_lt_iff_sqrt (x1 y1 x2 y2 r : ℚ) (hr : 0 < r) :
    dist_lt x1 y1 x2 y2 r = true ↔
      Real.sqrt (((x2 : ℝ) - x1) ^ 2 + ((y2 : ℝ) - y1) ^ 2) < (r : ℝ) := by
  have hr' : (0 : ℝ) < (r : ℝ) := by exact_mod_cast hr
  rw [Real.sqrt_lt' hr']
  unfold dist_lt dist_sq
  rw [decide_eq_true_iff]
  constructor
  · intro h; exact_mod_cast h
  · intro h; exact_mod_cast h

/-- The enemy loop kills the player exactly when some enemy whose `dead` flag was clear when
the loop reached it is within distance 32 of the player after its own physics step. -/
theorem enemies_loop_kill_iff (c : Config) (game : Game) (player : Player)
    (enemies : List Enemy) :
    (enemies_loop c game player enemies).1 = true ↔
      ∃ e ∈ enemies, e.dead = false ∧
        dist_lt player.body.px player.body.py (enemy_update c game e).body.px
          (enemy_update c game e).body.py 32 = true := by
  induction enemies with
  | nil => simp [enemies_loop]
  | cons e rest ih =>
    unfold enemies_loop
    by_cases hd : e.dead = true
    · simp [hd, ih]
    · have hd' : e.dead = false := by simpa using hd
      by_cases hk : dist_lt player.body.px player.body.py (enemy_update c game e).body.px
          (enemy_update c game e).body.py 32 = true
      · simp [hd', hk]
      · simp [hd', hk, ih]

/-- C8 (failing input). In `spikeEnemyGame` the enemy stands above a `SPIKES_TOP` tile and
is not immune; the player rests 30 pixels to its right. The player's own physics step does
not report death and the player is not below the level; the enemy's physics step returns
`PLAYER_DEAD`, so the enemy is marked dead in this frame; the enemy loop still leaves
through the player kill, and `game_update` returns `PLAYER_DEAD` with `death_type`
`PLAYER_DEAD`. -/
theorem enemy_contact_after_hazard_death :
    (player_physics stdConfig spikeEnemyGame (freshPlayer (restBody 94 64)) noInput).1
        ≠ stdConfig.PLAYER_DEAD ∧
      ¬ ((player_physics stdConfig spikeEnemyGame (freshPlayer (restBody 94 64)) noInput).2.py
        > (stdConfig.LEVEL_PIXEL_HEIGHT : ℚ)) ∧
      (physics_sim stdConfig spikeEnemyGame
        { restBody 64 64 with vx := 1 } false).1 = stdConfig.PLAYER_DEAD ∧
      ((game_update stdConfig spikeEnemyGame (freshPlayer (restBody 94 64)) noInput).2.1.enemies.map
        fun e => e.dead) = [true] ∧
      (enemies_loop stdConfig spikeEnemyGame
        (player_after_physics stdConfig spikeEnemyGame (freshPlayer (restBody 94 64)) noInput)
        spikeEnemyGame.enemies).1 = true ∧
      (game_update stdConfig spikeEnemyGame (freshPlayer (restBody 94 64)) noInput).1
        = stdConfig.PLAYER_DEAD ∧
      (game_update stdConfig spikeEnemyGame (freshPlayer (restBody 94 64)) noInput).2.2.death_type
        = stdConfig.PLAYER_DEAD := by
  decide!

/-! ### Fitness formula and button handling (C9, C10) -/

/-- C9. Fitness formula: on a call of `game_update` that is not ended by the time limit,
by a death reported by the player's physics step, by the lower bound or by enemy contact,
the stored fitness after the call is the maximum of the previous fitness and
`100 + score + px - time * FIT_TIME_WEIGHT - buttonpresses * FIT_BUTTONS_WEIGHT`, with
`px` the horizontal position after the physics step, `time` the elapsed time advanced by
one tick and `buttonpresses` the previous count plus
`input[BUTTON_JUMP] + input[BUTTON_LEFT] + input[BUTTON_RIGHT]`. -/
theorem game_update_fitness_formula (c : Config) (game : Game) (player : Player)
    (input : Nat → Nat)
    (hT : ¬ (player.time + 1 / (c.UPDATES_PS : ℚ) ≥ c.MAX_TIME - 1 / (c.UPDATES_PS : ℚ)))
    (hD : (player_physics c game player input).1 ≠ c.PLAYER_DEAD)
    (hF : ¬ ((player_physics c game player input).2.py > (c.LEVEL_PIXEL_HEIGHT : ℚ)))
    (hE : (enemies_loop c game (player_after_physics c game player input) game.enemies).1
      = false) :
    (game_update c game player input).2.2.fitness =
      max player.fitness
        (100 + player.score + (player_physics c game player input).2.px
          - (player.time + 1 / (c.UPDATES_PS : ℚ)) * c.FIT_TIME_WEIGHT
          - ((player.buttonpresses
              + ((input c.BUTTON_JUMP + input c.BUTTON_LEFT + input c.BUTTON_RIGHT : Nat) : Int)
              : Int) : ℚ) * c.FIT_BUTTONS_WEIGHT) := by
  unfold player_after_physics at hE
  unfold player_physics at hD hF hE ⊢
  unfold game_update
  simp only [advance_time, press_buttons, frame_fitness] at hD hF hE ⊢
  simp only [hT, hD, hF, hE, if_false, Bool.false_eq_true]
  split_ifs with h1 h2 h2
  · simp only []; rw [max_eq_right (le_of_lt h2)]
  · simp only []; rw [max_eq_left (not_lt.mp h2)]
  · simp only []; rw [max_eq_right (le_of_lt h2)]
  · simp only []; rw [max_eq_left (not_lt.mp h2)]

/-- Witness of C9: the first frame of a player resting above the grass row of `floorGame`. -/
theorem game_update_fitness_formula_witness :
    (game_update stdConfig floorGame (freshPlayer (restBody 64 64)) noInput).2.2.fitness =
      max (freshPlayer (restBody 64 64)).fitness
        (100 + (freshPlayer (restBody 64 64)).score
          + (player_physics stdConfig floorGame (freshPlayer (restBody 64 64)) noInput).2.px
          - ((freshPlayer (restBody 64 64)).time + 1 / (stdConfig.UPDATES_PS : ℚ))
            * stdConfig.FIT_TIME_WEIGHT
          - (((freshPlayer (restBody 64 64)).buttonpresses
              + ((noInput stdConfig.BUTTON_JUMP + noInput stdConfig.BUTTON_LEFT
                  + noInput stdConfig.BUTTON_RIGHT : Nat) : Int) : Int) : ℚ)
            * stdConfig.FIT_BUTTONS_WEIGHT) :=
  game_update_fitness_formula stdConfig floorGame (freshPlayer (restBody 64 64)) noInput
    (by decide!) (by decide!) (by decide!) (by decide!)

/-- On a frame that passes the time limit check, the body stored in the player is the one
left by `physics_sim` run on the body with the button velocity of `press_buttons`. -/
theorem game_update_body_of_running (c : Config) (game : Game) (player : Player)
    (input : Nat → Nat)
    (hT : ¬ ((advance_time c player).time ≥ c.MAX_TIME - 1 / (c.UPDATES_PS : ℚ))) :
    (game_update c game player input).2.2.body =
      (physics_sim c game (press_buttons c (advance_time c player) input).body
        (jump_pressed c input)).2 := by
  unfold game_update
  simp only [hT, if_false]
  split_ifs <;> rfl

/-- Rounding to the nearest integer errs by at most one half. -/
theorem round_half_even_error (r : ℚ) : |(round_half_even r : ℚ) - r| ≤ 1 / 2 := by
  have h1 : (⌊r⌋ : ℚ) ≤ r := Int.floor_le r
  have h2 : r < (⌊r⌋ : ℚ) + 1 := Int.lt_floor_add_one r
  unfold round_half_even
  rw [abs_le]
  split_ifs <;> push_cast <;> constructor <;> linarith

/-- The upward search returns a positive value not above `a`. -/
theorem binade_up_spec (a : ℚ) (n : Nat) (p : ℚ) (hp : 0 < p) (hpa : p ≤ a) :
    0 < binade_up a n p ∧ binade_up a n p ≤ a := by
  induction n generalizing p with
  | zero => exact ⟨hp, hpa⟩
  | succ n ih =>
    unfold binade_up
    split_ifs with h
    · exact ⟨hp, hpa⟩
    · exact ih (2 * p) (by linarith) (not_lt.mp h)

/-- The downward search returns a positive value that is not above `a`, or the last power
of two it reaches. -/
theorem binade_down_spec (a : ℚ) (n : Nat) (p : ℚ) (hp : 0 < p) :
    0 < binade_down a n p ∧ (binade_down a n p ≤ a ∨ binade_down a n p = p / 2 ^ n) := by
  induction n generalizing p with
  | zero => exact ⟨hp, Or.inr (by simp [binade_down])⟩
  | succ n ih =>
    unfold binade_down
    split_ifs with h
    · exact ⟨hp, Or.inl h⟩
    · obtain ⟨h1, h2⟩ := ih (p / 2) (by linarith)
      refine ⟨h1, ?_⟩
      rcases h2 with h2 | h2
      · exact Or.inl h2
      · right
        rw [h2, pow_succ, div_div, mul_comm]

/-- The binade of `q` is positive and not above `|q|`, or it is the least normal binade
`2 ^ (-126)`. -/
theorem f32_binade_spec (q : ℚ) :
    0 < f32_binade q ∧ (f32_binade q ≤ |q| ∨ f32_binade q = 1 / 2 ^ 126) := by
  unfold f32_binade
  split_ifs with h
  · obtain ⟨h1, h2⟩ := binade_up_spec |q| 127 1 one_pos h
    exact ⟨h1, Or.inl h2⟩
  · obtain ⟨h1, h2⟩ := binade_down_spec |q| 125 (1 / 2) (by norm_num)
    refine ⟨h1, ?_⟩
    rcases h2 with h2 | h2
    · exact Or.inl h2
    · right
      rw [h2]
      norm_num

/-- Rounding to binary32 errs by at most half a unit in the last place: `2 ^ (-24)` times
the magnitude, or `2 ^ (-150)` below the normal range. -/
theorem f32_error (q X : ℚ) (hX : |q| ≤ X) : |f32 q - q| ≤ X / 2 ^ 24 + 1 / 2 ^ 150 := by
  have hX0 : 0 ≤ X := le_trans (abs_nonneg q) hX
  unfold f32
  split_ifs with h0
  · subst h0
    simp only [sub_zero, abs_zero]
    positivity
  · obtain ⟨hb, hs⟩ := f32_binade_spec q
    have hu : 0 < f32_binade q / 2 ^ 23 := by positivity
    have he := round_half_even_error (q / (f32_binade q / 2 ^ 23))
    have : (round_half_even (q / (f32_binade q / 2 ^ 23)) : ℚ) * (f32_binade q / 2 ^ 23) - q
        = ((round_half_even (q / (f32_binade q / 2 ^ 23)) : ℚ)
            - q / (f32_binade q / 2 ^ 23)) * (f32_binade q / 2 ^ 23) := by
      rw [sub_mul, div_mul_cancel₀ _ (ne_of_gt hu)]
    rw [this, abs_mul, abs_of_pos hu]
    have h3 : |(round_half_even (q / (f32_binade q / 2 ^ 23)) : ℚ)
        - q / (f32_binade q / 2 ^ 23)| * (f32_binade q / 2 ^ 23)
        ≤ 1 / 2 * (f32_binade q / 2 ^ 23) := mul_le_mul_of_nonneg_right he (le_of_lt hu)
    have h4 : 1 / 2 * (f32_binade q / 2 ^ 23) = f32_binade q / 2 ^ 24 := by ring
    rw [h4] at h3
    rcases hs with hs | hs
    · have : f32_binade q / 2 ^ 24 ≤ X / 2 ^ 24 :=
        div_le_div_of_nonneg_right (le_trans hs hX) (by positivity)
      have : (0 : ℚ) ≤ 1 / 2 ^ 150 := by positivity
      linarith
    · have hb' : f32_binade q / 2 ^ 24 = 1 / 2 ^ 150 := by rw [hs]; norm_num
      have : (0 : ℚ) ≤ X / 2 ^ 24 := by positivity
      linarith

/-- Zero is a binary32 value. -/
theorem f32_zero : f32 0 = 0 := by simp [f32]

/-- The upward search stops below twice its result when `a` is within reach. -/
theorem binade_up_upper (a : ℚ) (n : Nat) (p : ℚ) (h : a < 2 * p * 2 ^ n) :
    a < 2 * binade_up a n p := by
  induction n generalizing p with
  | zero => simpa [binade_up] using h
  | succ n ih =>
    unfold binade_up
    split_ifs with h'
    · exact h'
    · apply ih
      rw [pow_succ] at h
      linarith

/-- The downward search stops below twice its result. -/
theorem binade_down_upper (a : ℚ) (n : Nat) (p : ℚ) (h : a < 2 * p) :
    a < 2 * binade_down a n p := by
  induction n generalizing p with
  | zero => simpa [binade_down] using h
  | succ n ih =>
    unfold binade_down
    split_ifs with h'
    · exact h
    · apply ih
      linarith

/-- Within the range of `float`, `q` lies below twice its binade: together with
`f32_binade_spec`, the binade is the power of two `2 ^ e ≤ |q| < 2 ^ (e + 1)` in the
normal range. -/
theorem f32_binade_upper (q : ℚ) (h : |q| < 2 ^ 128) : |q| < 2 * f32_binade q := by
  unfold f32_binade
  split_ifs with h1
  · apply binade_up_upper
    norm_num at h ⊢
    linarith
  · apply binade_down_upper
    norm_num
    linarith

/-- Sample values of the rounding: a quotient that is not a binary fraction, two ties
between neighbours (rounded to the even one), and a sum that loses its small term. -/
theorem f32_samples :
    f32 (1 / 3) = 11184811 / 33554432 ∧ f32 16777217 = 16777216 ∧ f32 16777219 = 16777220 ∧
      f32 (-6 - 1099511627776) = -1099511627776 ∧ f32 6 = 6 := by
  decide!

/-- One button line with the button pressed: `vx += (T - vx) * 1` leaves `vx` within
`5.01 * V / 2 ^ 24` of the target `T`, for `|T| ≤ V` and `|vx| ≤ 1.001 * V`. -/
theorem button_step_error (v T V : ℚ) (hV : 1 ≤ V) (hT : |T| ≤ V)
    (hv : |v| ≤ 1001 / 1000 * V) :
    |f32 (v + f32 (f32 (T - v))) - T| ≤ 501 / 100 * V / 2 ^ 24 := by
  rw [abs_le] at hT hv
  have e1 := f32_error (T - v) (2001 / 1000 * V)
    (abs_le.mpr ⟨by linarith, by linarith⟩)
  rw [abs_le] at e1
  have e2 := f32_error (f32 (T - v)) (2002 / 1000 * V)
    (abs_le.mpr ⟨by norm_num at e1 ⊢; linarith, by norm_num at e1 ⊢; linarith⟩)
  rw [abs_le] at e2
  have e3 := f32_error (v + f32 (f32 (T - v))) (1001 / 1000 * V)
    (abs_le.mpr ⟨by norm_num at e1 e2 ⊢; linarith, by norm_num at e1 e2 ⊢; linarith⟩)
  rw [abs_le] at e3
  rw [abs_le]
  constructor <;> norm_num at e1 e2 e3 ⊢ <;> linarith

/-- C10 (amended). Left wins up to float rounding. For `1 ≤ V_X` and a prior horizontal
velocity with `|vx| ≤ V_X`: on a frame that passes the time limit, the body that
`game_update` hands to the physics step carries the velocity computed by lines 76-77; that
velocity is within `V_X / 2 ^ 21` of the left target `-V_X` when the right and the left
input are both 1, within `V_X / 2 ^ 21` of `V_X` when only the right input is 1, within
`V_X / 2 ^ 21` of `-V_X` when only the left input is 1, and it is the prior velocity
itself when both are 0 (the prior velocity being a `float` value). The bound `2 ^ 64` on
`V_X` keeps every intermediate result inside the range of `float`. -/
theorem button_vx_rounding (c : Config) (game : Game) (player : Player) (input : Nat → Nat)
    (hV : 1 ≤ c.V_X) (_hmax : c.V_X ≤ 2 ^ 64) (hvx : |player.body.vx| ≤ c.V_X) :
    (¬ (player.time + 1 / (c.UPDATES_PS : ℚ) ≥ c.MAX_TIME - 1 / (c.UPDATES_PS : ℚ)) →
        (game_update c game player input).2.2.body =
          (physics_sim c game
            { player.body with
              vx := (press_buttons c (advance_time c player) input).body.vx }
            (jump_pressed c input)).2) ∧
      (input c.BUTTON_RIGHT = 0 → input c.BUTTON_LEFT = 0 →
        f32 player.body.vx = player.body.vx →
        (press_buttons c (advance_time c player) input).body.vx = player.body.vx) ∧
      (input c.BUTTON_RIGHT = 1 → input c.BUTTON_LEFT = 0 →
        |(press_buttons c (advance_time c player) input).body.vx - c.V_X|
          ≤ c.V_X / 2 ^ 21) ∧
      (input c.BUTTON_RIGHT = 0 → input c.BUTTON_LEFT = 1 →
        |(press_buttons c (advance_time c player) input).body.vx - -c.V_X|
          ≤ c.V_X / 2 ^ 21) ∧
      (input c.BUTTON_RIGHT = 1 → input c.BUTTON_LEFT = 1 →
        |(press_buttons c (advance_time c player) input).body.vx - -c.V_X|
          ≤ c.V_X / 2 ^ 21) := by
  have hV0 : (0 : ℚ) ≤ c.V_X := by linarith
  have habs : |c.V_X| ≤ c.V_X := le_of_eq (abs_of_nonneg hV0)
  have habs' : |-c.V_X| ≤ c.V_X := by rw [abs_neg]; exact habs
  have hvx' : |player.body.vx| ≤ 1001 / 1000 * c.V_X := by linarith
  refine ⟨fun hT => game_update_body_of_running c game player input hT, ?_, ?_, ?_, ?_⟩
  · intro hr hl hrep
    simp only [press_buttons, advance_time, button_vx, hr, hl, Nat.cast_zero, mul_zero, f32_zero,
      add_zero, hrep]
  · intro hr hl
    simp only [press_buttons, advance_time, button_vx, hr, hl, Nat.cast_zero, Nat.cast_one,
      mul_zero, mul_one, f32_zero, add_zero]
    have s1 := button_step_error player.body.vx c.V_X c.V_X hV habs hvx'
    rw [abs_le] at s1
    have e := f32_error (f32 (player.body.vx + f32 (f32 (c.V_X - player.body.vx))))
      (1001 / 1000 * c.V_X)
      (abs_le.mpr ⟨by norm_num at s1 ⊢; linarith, by norm_num at s1 ⊢; linarith⟩)
    rw [abs_le] at e
    rw [abs_le]
    constructor <;> norm_num at s1 e ⊢ <;> linarith
  · intro hr hl
    simp only [press_buttons, advance_time, button_vx, hr, hl, Nat.cast_zero, Nat.cast_one,
      mul_zero, mul_one, f32_zero, add_zero]
    have e := f32_error player.body.vx c.V_X hvx
    rw [abs_le] at e
    rw [abs_le] at hvx
    have s2 := button_step_error (f32 player.body.vx) (-c.V_X) c.V_X hV habs'
      (abs_le.mpr ⟨by norm_num at e ⊢; linarith, by norm_num at e ⊢; linarith⟩)
    rw [abs_le] at s2
    rw [abs_le]
    constructor <;> norm_num at s2 ⊢ <;> linarith
  · intro hr hl
    simp only [press_buttons, advance_time, button_vx, hr, hl, Nat.cast_one, mul_one]
    have s1 := button_step_error player.body.vx c.V_X c.V_X hV habs hvx'
    rw [abs_le] at s1
    have s2 := button_step_error (f32 (player.body.vx + f32 (f32 (c.V_X - player.body.vx))))
      (-c.V_X) c.V_X hV habs'
      (abs_le.mpr ⟨by norm_num at s1 ⊢; linarith, by norm_num at s1 ⊢; linarith⟩)
    rw [abs_le] at s2
    rw [abs_le]
    constructor <;> norm_num at s2 ⊢ <;> linarith

/-- Witness of C10 (amended): both buttons pressed on a body at rest. -/
theorem button_vx_rounding_witness :
    |(press_buttons stdConfig (advance_time stdConfig (freshPlayer (restBody 64 64)))
        bothInput).body.vx - -stdConfig.V_X| ≤ stdConfig.V_X / 2 ^ 21 :=
  (button_vx_rounding stdConfig floorGame (freshPlayer (restBody 64 64)) bothInput
    (by decide!) (by decide!) (by decide!)).2.2.2.2 rfl rfl

/-- C10 (counterexample). With only the left input at 1 and the prior velocity `2 ^ 40`, the
difference `-V_X - vx` rounds to `-2 ^ 40` and lines 76-77 leave `vx = 0`, not `-V_X`.
With both inputs at 1 and the prior velocity `-6419853 / 2 ^ 21` (about -3.06, a `float`
value), they leave `-12582913 / 2 ^ 21`, one unit in the last place away from
`-V_X = -6`. -/
theorem left_wins_claim_fails :
    leftInput stdConfig.BUTTON_RIGHT = 0 ∧ leftInput stdConfig.BUTTON_LEFT = 1 ∧
      (press_buttons stdConfig (advance_time stdConfig (freshPlayer fastBody))
        leftInput).body.vx = 0 ∧
      (press_buttons stdConfig (advance_time stdConfig (freshPlayer fastBody))
        leftInput).body.vx ≠ -stdConfig.V_X ∧
      bothInput stdConfig.BUTTON_RIGHT = 1 ∧ bothInput stdConfig.BUTTON_LEFT = 1 ∧
      f32 decayedBody.vx = decayedBody.vx ∧
      (press_buttons stdConfig (advance_time stdConfig (freshPlayer decayedBody))
        bothInput).body.vx = -12582913 / 2097152 ∧
      (press_buttons stdConfig (advance_time stdConfig (freshPlayer decayedBody))
        bothInput).body.vx ≠ -stdConfig.V_X := by
  decide!

/-! ### Sensory encoder (C11, C12) -/

/-- Length of a concatenation of `m` rows of `n` entries each. -/
theorem length_flatMap_const {α : Type} (m n : Nat) (f : Nat → List α)
    (h : ∀ r, (f r).length = n) : ((List.range m).flatMap f).length = m * n := by
  induction m with
  | zero => simp
  | succ m ih =>
    rw [List.range_succ, List.flatMap_append, List.length_append, ih]
    simp [h, Nat.succ_mul]

/-- The loops of `get_input_tiles` visit `2 * (in_h / 2)` rows of `2 * (in_w / 2)` cells each. -/
theorem get_input_tiles_length (c : Config) (game : Game) (player : Player) (in_h in_w : Nat) :
    (get_input_tiles c game player in_h in_w).length = (2 * (in_h / 2)) * (2 * (in_w / 2)) := by
  unfold get_input_tiles
  simp only []
  rw [length_flatMap_const _ (2 * (in_w / 2))]
  · congr 1
    omega
  · intro r
    simp only [List.length_map, List.length_range]
    omega

/-- Row-major indexing of a concatenation of `m` rows of `n` entries each. -/
theorem getElem?_flatMap_range {α : Type} (m n : Nat) (f : Nat → Nat → α) (r k : Nat)
    (hr : r < m) (hk : k < n) :
    ((List.range m).flatMap fun r => (List.range n).map (f r))[r * n + k]? = some (f r k) := by
  induction m with
  | zero => omega
  | succ m ih =>
    have hlen : ((List.range m).flatMap fun r => (List.range n).map (f r)).length = m * n :=
      length_flatMap_const m n _ (fun r => by simp)
    rw [List.range_succ, List.flatMap_append]
    by_cases hrm : r < m
    · rw [List.getElem?_append_left, ih hrm]
      rw [hlen]
      calc r * n + k < r * n + n := by omega
        _ = (r + 1) * n := by ring
        _ ≤ m * n := Nat.mul_le_mul_right n hrm
    · have hrm' : r = m := by omega
      subst hrm'
      rw [List.getElem?_append_right (by rw [hlen]; omega), hlen]
      simp [hk]

/-- For an even height and an even width the window has `in_h * in_w` cells. -/
theorem get_input_tiles_length_even (c : Config) (game : Game) (player : Player)
    (in_h in_w : Nat) (hh : in_h % 2 = 0) (hw : in_w % 2 = 0) :
    (get_input_tiles c game player in_h in_w).length = in_h * in_w := by
  rw [get_input_tiles_length]
  have h1 : 2 * (in_h / 2) = in_h := by omega
  have h2 : 2 * (in_w / 2) = in_w := by omega
  rw [h1, h2]

/-- C11 (failing input). For the window height 3 and width 3 `get_input_tiles` steps through
4 cells only, not the `3 * 3 = 9` floats of the input matrix: both loops run over
`2 * (3 / 2) = 2` indices. -/
theorem input_window_odd_size :
    (get_input_tiles stdConfig floorGame (player_setup stdConfig (freshPlayer (restBody 0 0)))
        3 3).length = 4 ∧
      (get_input_tiles stdConfig floorGame (player_setup stdConfig (freshPlayer (restBody 0 0)))
        3 3).length ≠ 3 * 3 := by
  decide!

/-- Values of the conversion `switch` on the ten named tile codes. -/
theorem tile_to_input_values (c : Config) (hok : tile_codes_ok c) :
    tile_to_input c (c.EMPTY % 256) = some 0 ∧ tile_to_input c (c.FLAG % 256) = some 0 ∧
      tile_to_input c (c.PIPE_BOTTOM % 256) = some (1 / 3) ∧
      tile_to_input c (c.PIPE_MIDDLE % 256) = some (1 / 3) ∧
      tile_to_input c (c.PIPE_TOP % 256) = some (1 / 3) ∧
      tile_to_input c (c.GRASS % 256) = some (1 / 3) ∧
      tile_to_input c (c.DIRT % 256) = some (1 / 3) ∧
      tile_to_input c (c.BRICKS % 256) = some (1 / 3) ∧
      tile_to_input c (c.SPIKES_TOP % 256) = some (2 / 3) ∧
      tile_to_input c (c.SPIKES_BOTTOM % 256) = some 1 := by
  obtain ⟨hd, hr⟩ := hok
  simp only [List.pairwise_cons, List.mem_cons, List.mem_singleton, forall_eq_or_imp, forall_eq,
    List.not_mem_nil, false_implies, implies_true, List.Pairwise.nil, and_true, ne_eq] at hd hr
  obtain ⟨⟨h1, h1'⟩, ⟨h2, h2'⟩, ⟨h3, h3'⟩, ⟨h4, h4'⟩, ⟨h5, h5'⟩, ⟨h6, h6'⟩, ⟨h7, h7'⟩, ⟨h8, h8'⟩,
    ⟨h9, h9'⟩, ⟨h10, h10'⟩⟩ := hr
  rw [Int.emod_eq_of_lt h1 h1', Int.emod_eq_of_lt h2 h2', Int.emod_eq_of_lt h3 h3',
    Int.emod_eq_of_lt h4 h4', Int.emod_eq_of_lt h5 h5', Int.emod_eq_of_lt h6 h6',
    Int.emod_eq_of_lt h7 h7', Int.emod_eq_of_lt h8 h8', Int.emod_eq_of_lt h9 h9',
    Int.emod_eq_of_lt h10 h10']
  unfold tile_to_input
  obtain ⟨a1, a2, a3, a4, a5, a6, a7, a8, a9⟩ := hd
  refine ⟨?_, ?_, ?_, ?_, ?_, ?_, ?_, ?_, ?_, ?_⟩ <;> simp_all [eq_comm]

/-- Every value the conversion `switch` writes is 0, 1/3, 2/3 or 1. -/
theorem tile_to_input_range (c : Config) (tile : Int) (v : ℚ)
    (h : tile_to_input c tile = some v) : v = 0 ∨ v = 1 / 3 ∨ v = 2 / 3 ∨ v = 1 := by
  unfold tile_to_input at h
  split_ifs at h <;> simp at h <;> simp [← h]

/-- C12. Sensory cell encoding, for tile codes that are pairwise distinct bytes: the cell
number `k` of row `r` of the window is the outcome for the tile position
`(tile_x - in_w / 2 + k, tile_y - in_h / 2 + r)`, stored row-major; and the outcome for a
position `(x, y)` is the value 1/3 when `x` is out of bounds (whatever `y`), else 0 when
`y` is out of bounds, else 0 for `EMPTY` and `FLAG`, 1/3 for `PIPE_BOTTOM`, `PIPE_MIDDLE`,
`PIPE_TOP`, `GRASS`, `DIRT` and `BRICKS`, 2/3 for `SPIKES_TOP` and 1 for `SPIKES_BOTTOM`;
every written value is 0, 1/3, 2/3 or 1. -/
theorem input_cell_encoding (c : Config) (game : Game) (player : Player) (in_h in_w : Nat)
    (hok : tile_codes_ok c) :
    (∀ r k : Nat, r < 2 * (in_h / 2) → k < 2 * (in_w / 2) →
        (get_input_tiles c game player in_h in_w)[r * (2 * (in_w / 2)) + k]? =
          some (input_cell c game (player.body.tile_x - ((in_w / 2 : Nat) : Int) + (k : Int))
            (player.body.tile_y - ((in_h / 2 : Nat) : Int) + (r : Int)))) ∧
      ∀ x y : Int,
        ((x < 0 ∨ x ≥ c.LEVEL_WIDTH) → input_cell c game x y = some (1 / 3)) ∧
        (¬(x < 0 ∨ x ≥ c.LEVEL_WIDTH) → (y < 0 ∨ y ≥ c.LEVEL_HEIGHT) →
          input_cell c game x y = some 0) ∧
        (¬(x < 0 ∨ x ≥ c.LEVEL_WIDTH) → ¬(y < 0 ∨ y ≥ c.LEVEL_HEIGHT) →
          ((game.tiles (y * c.LEVEL_WIDTH + x) = c.EMPTY ∨
              game.tiles (y * c.LEVEL_WIDTH + x) = c.FLAG) →
            input_cell c game x y = some 0) ∧
          ((game.tiles (y * c.LEVEL_WIDTH + x) = c.PIPE_BOTTOM ∨
              game.tiles (y * c.LEVEL_WIDTH + x) = c.PIPE_MIDDLE ∨
              game.tiles (y * c.LEVEL_WIDTH + x) = c.PIPE_TOP ∨
              game.tiles (y * c.LEVEL_WIDTH + x) = c.GRASS ∨
              game.tiles (y * c.LEVEL_WIDTH + x) = c.DIRT ∨
              game.tiles (y * c.LEVEL_WIDTH + x) = c.BRICKS) →
            input_cell c game x y = some (1 / 3)) ∧
          (game.tiles (y * c.LEVEL_WIDTH + x) = c.SPIKES_TOP →
            input_cell c game x y = some (2 / 3)) ∧
          (game.tiles (y * c.LEVEL_WIDTH + x) = c.SPIKES_BOTTOM →
            input_cell c game x y = some 1)) ∧
        (∀ v : ℚ, input_cell c game x y = some v → v = 0 ∨ v = 1 / 3 ∨ v = 2 / 3 ∨ v = 1) := by
  obtain ⟨e1, e2, e3, e4, e5, e6, e7, e8, e9, e10⟩ := tile_to_input_values c hok
  refine ⟨fun r k hr hk => ?_, fun x y => ⟨fun hx => ?_, fun hx hy => ?_, fun hx hy => ?_,
    fun v hv => tile_to_input_range c _ v hv⟩⟩
  · unfold get_input_tiles
    simp only []
    have h1 : (player.body.tile_y + ((in_h / 2 : Nat) : Int)
        - (player.body.tile_y - ((in_h / 2 : Nat) : Int))).toNat = 2 * (in_h / 2) := by omega
    have h2 : (player.body.tile_x + ((in_w / 2 : Nat) : Int)
        - (player.body.tile_x - ((in_w / 2 : Nat) : Int))).toNat = 2 * (in_w / 2) := by omega
    rw [h1, h2]
    exact getElem?_flatMap_range (2 * (in_h / 2)) (2 * (in_w / 2))
      (fun r k => input_cell c game (player.body.tile_x - ((in_w / 2 : Nat) : Int) + (k : Int))
        (player.body.tile_y - ((in_h / 2 : Nat) : Int) + (r : Int))) r k hr hk
  · unfold input_cell input_tile
    rw [if_pos hx]; exact e8
  · unfold input_cell input_tile
    rw [if_neg hx, if_pos hy]; exact e1
  · unfold input_cell input_tile
    rw [if_neg hx, if_neg hy]
    refine ⟨?_, ?_, ?_, ?_⟩
    · rintro (h | h) <;> rw [h] <;> assumption
    · rintro (h | h | h | h | h | h) <;> rw [h] <;> assumption
    · intro h; rw [h]; exact e9
    · intro h; rw [h]; exact e10

/-- Witness of C12: the first cell of the 4 x 4 window around the spawn tile, and the cell
for a position left of the level. -/
theorem input_cell_encoding_witness :
    (get_input_tiles stdConfig floorGame (player_setup stdConfig (freshPlayer (restBody 0 0)))
        4 4)[0 * (2 * (4 / 2)) + 0]? =
        some (input_cell stdConfig floorGame
          ((player_setup stdConfig (freshPlayer (restBody 0 0))).body.tile_x
            - ((4 / 2 : Nat) : Int) + ((0 : Nat) : Int))
          ((player_setup stdConfig (freshPlayer (restBody 0 0))).body.tile_y
            - ((4 / 2 : Nat) : Int) + ((0 : Nat) : Int))) ∧
      input_cell stdConfig floorGame (-1) 3 = some (1 / 3) :=
  ⟨(input_cell_encoding stdConfig floorGame (player_setup stdConfig (freshPlayer (restBody 0 0)))
      4 4 (by unfold tile_codes_ok; decide)).1 0 0 (by decide) (by decide),
    ((input_cell_encoding stdConfig floorGame (player_setup stdConfig (freshPlayer (restBody 0 0)))
      4 4 (by unfold tile_codes_ok; decide)).2 (-1) 3).1 (Or.inl (by decide))⟩

/-! ### Return paths of `game_update` (C13, C20) -/

/-- The horizontal phase reports 0, `COL_RIGHT` or `COL_LEFT`. -/
theorem horizontal_step_code (c : Config) (game : Game) (b : Body) :
    (horizontal_step c game b).2 = 0 ∨ (horizontal_step c game b).2 = c.COL_RIGHT ∨
      (horizontal_step c game b).2 = c.COL_LEFT := by
  unfold horizontal_step left_collision right_collision
  split_ifs <;> simp

/-- The physics step returns `PLAYER_DEAD`, 0, `COL_RIGHT` or `COL_LEFT`. -/
theorem physics_sim_code (c : Config) (game : Game) (body : Body) (jump : Bool) :
    (physics_sim c game body jump).1 = c.PLAYER_DEAD ∨ (physics_sim c game body jump).1 = 0 ∨
      (physics_sim c game body jump).1 = c.COL_RIGHT ∨
      (physics_sim c game body jump).1 = c.COL_LEFT := by
  unfold physics_sim
  simp only []
  split_ifs
  · exact Or.inl rfl
  · exact Or.inl rfl
  · exact Or.inr (horizontal_step_code c game _)

/-- The six return paths of `game_update`, in the order of the source. -/
theorem game_update_eq (c : Config) (game : Game) (player : Player) (input : Nat → Nat) :
    game_update c game player input =
      if player.time + 1 / (c.UPDATES_PS : ℚ) ≥ c.MAX_TIME - 1 / (c.UPDATES_PS : ℚ) then
        (c.PLAYER_TIMEOUT, game,
          { advance_time c player with death_type := c.PLAYER_TIMEOUT })
      else if (player_physics c game player input).1 = c.PLAYER_DEAD then
        (c.PLAYER_DEAD, game,
          { player_after_physics c game player input with death_type := c.PLAYER_DEAD })
      else if (player_physics c game player input).2.py > (c.LEVEL_PIXEL_HEIGHT : ℚ) then
        (c.PLAYER_DEAD, game,
          { player_after_physics c game player input with death_type := c.PLAYER_DEAD })
      else if (enemies_loop c game (player_after_physics c game player input)
          game.enemies).1 = true then
        (c.PLAYER_DEAD,
          { game with
            enemies := (enemies_loop c game (player_after_physics c game player input)
              game.enemies).2 },
          { player_after_physics c game player input with death_type := c.PLAYER_DEAD })
      else if (player_physics c game player input).2.px + (c.PLAYER_RIGHT : ℚ)
          ≥ (((c.LEVEL_WIDTH - 4) * c.TILE_SIZE : Int) : ℚ) then
        (c.PLAYER_DEAD,
          { game with
            enemies := (enemies_loop c game (player_after_physics c game player input)
              game.enemies).2 },
          { player_after_physics c game player input with
            fitness :=
              if frame_fitness c (player_after_physics c game player input) > player.fitness
              then frame_fitness c (player_after_physics c game player input)
              else player.fitness
            death_type := c.PLAYER_COMPLETE })
      else
        ((player_physics c game player input).1,
          { game with
            enemies := (enemies_loop c game (player_after_physics c game player input)
              game.enemies).2 },
          { player_after_physics c game player input with
            fitness :=
              if frame_fitness c (player_after_physics c game player input) > player.fitness
              then frame_fitness c (player_after_physics c game player input)
              else player.fitness }) := by
  rfl

/-- C13. Completion: on a call of `game_update` that reaches the end of the frame (no
timeout, no death reported by the player's physics step, no fall below the level, no enemy
contact), if `px + PLAYER_RIGHT` is at or beyond `(LEVEL_WIDTH - 4) * TILE_SIZE` then
`death_type` is set to `PLAYER_COMPLETE` and the call returns `PLAYER_DEAD` (one of the
two terminal codes `PLAYER_DEAD`, `PLAYER_COMPLETE`); otherwise `death_type` is left
unchanged and the call returns the result of the physics step, which is 0, `COL_RIGHT` or
`COL_LEFT`. -/
theorem game_update_completion (c : Config) (game : Game) (player : Player)
    (input : Nat → Nat)
    (hT : ¬ (player.time + 1 / (c.UPDATES_PS : ℚ) ≥ c.MAX_TIME - 1 / (c.UPDATES_PS : ℚ)))
    (hD : (player_physics c game player input).1 ≠ c.PLAYER_DEAD)
    (hF : ¬ ((player_physics c game player input).2.py > (c.LEVEL_PIXEL_HEIGHT : ℚ)))
    (hE : (enemies_loop c game (player_after_physics c game player input) game.enemies).1
      = false) :
    ((player_physics c game player input).2.px + (c.PLAYER_RIGHT : ℚ)
          ≥ (((c.LEVEL_WIDTH - 4) * c.TILE_SIZE : Int) : ℚ) →
        (game_update c game player input).2.2.death_type = c.PLAYER_COMPLETE ∧
          ((game_update c game player input).1 = c.PLAYER_DEAD ∨
            (game_update c game player input).1 = c.PLAYER_COMPLETE)) ∧
      (¬ ((player_physics c game player input).2.px + (c.PLAYER_RIGHT : ℚ)
          ≥ (((c.LEVEL_WIDTH - 4) * c.TILE_SIZE : Int) : ℚ)) →
        (game_update c game player input).2.2.death_type = player.death_type ∧
          (game_update c game player input).1 = (player_physics c game player input).1 ∧
          ((game_update c game player input).1 = 0 ∨
            (game_update c game player input).1 = c.COL_RIGHT ∨
            (game_update c game player input).1 = c.COL_LEFT)) := by
  have hcode : (player_physics c game player input).1 = c.PLAYER_DEAD ∨
      (player_physics c game player input).1 = 0 ∨
      (player_physics c game player input).1 = c.COL_RIGHT ∨
      (player_physics c game player input).1 = c.COL_LEFT := physics_sim_code c game _ _
  have hE' : ¬ ((enemies_loop c game (player_after_physics c game player input)
      game.enemies).1 = true) := by rw [hE]; simp
  rw [game_update_eq, if_neg hT, if_neg hD, if_neg hF, if_neg hE']
  constructor
  · intro h
    rw [if_pos h]
    exact ⟨rfl, Or.inl rfl⟩
  · intro h
    rw [if_neg h]
    refine ⟨rfl, rfl, ?_⟩
    rcases hcode with h' | h'
    · exact absurd h' hD
    · exact h'

/-- Witness of C13: a player standing on the grass row with its right edge past the
completion margin. -/
theorem game_update_completion_witness :
    (game_update stdConfig floorGame (freshPlayer (restBody 8040 64)) noInput).2.2.death_type
        = stdConfig.PLAYER_COMPLETE ∧
      ((game_update stdConfig floorGame (freshPlayer (restBody 8040 64)) noInput).1
          = stdConfig.PLAYER_DEAD ∨
        (game_update stdConfig floorGame (freshPlayer (restBody 8040 64)) noInput).1
          = stdConfig.PLAYER_COMPLETE) :=
  (game_update_completion stdConfig floorGame (freshPlayer (restBody 8040 64)) noInput
    (by decide!) (by decide!) (by decide!) (by decide!)).1 (by decide!)

/-- C20. Terminal frames do not score, for `PLAYER_TIMEOUT` different from `PLAYER_DEAD`, 0,
`COL_RIGHT` and `COL_LEFT` and `PLAYER_COMPLETE` different from `PLAYER_DEAD`: the score is
never changed by `game_update`; when the call returns `PLAYER_TIMEOUT`, or returns
`PLAYER_DEAD` with `death_type` `PLAYER_DEAD`, the fitness is the one before the call; and
the fitness changes only on a frame that reaches the scoring step, that is one not ended by
the time limit, a death in the physics step, the lower bound or enemy contact. -/
theorem game_update_terminal_no_score (c : Config) (game : Game) (player : Player)
    (input : Nat → Nat)
    (h1 : c.PLAYER_TIMEOUT ≠ c.PLAYER_DEAD) (h2 : c.PLAYER_TIMEOUT ≠ 0)
    (h3 : c.PLAYER_TIMEOUT ≠ c.COL_RIGHT) (h4 : c.PLAYER_TIMEOUT ≠ c.COL_LEFT)
    (h5 : c.PLAYER_COMPLETE ≠ c.PLAYER_DEAD) :
    (game_update c game player input).2.2.score = player.score ∧
      ((game_update c game player input).1 = c.PLAYER_TIMEOUT →
        (game_update c game player input).2.2.fitness = player.fitness) ∧
      ((game_update c game player input).1 = c.PLAYER_DEAD →
        (game_update c game player input).2.2.death_type = c.PLAYER_DEAD →
        (game_update c game player input).2.2.fitness = player.fitness) ∧
      ((game_update c game player input).2.2.fitness ≠ player.fitness →
        ¬ (player.time + 1 / (c.UPDATES_PS : ℚ) ≥ c.MAX_TIME - 1 / (c.UPDATES_PS : ℚ)) ∧
          (player_physics c game player input).1 ≠ c.PLAYER_DEAD ∧
          ¬ ((player_physics c game player input).2.py > (c.LEVEL_PIXEL_HEIGHT : ℚ)) ∧
          (enemies_loop c game (player_after_physics c game player input) game.enemies).1
            = false) := by
  have hcode : (player_physics c game player input).1 = c.PLAYER_DEAD ∨
      (player_physics c game player input).1 = 0 ∨
      (player_physics c game player input).1 = c.COL_RIGHT ∨
      (player_physics c game player input).1 = c.COL_LEFT := physics_sim_code c game _ _
  rw [game_update_eq]
  by_cases hT : player.time + 1 / (c.UPDATES_PS : ℚ) ≥ c.MAX_TIME - 1 / (c.UPDATES_PS : ℚ)
  · rw [if_pos hT]
    exact ⟨rfl, fun _ => rfl, fun _ _ => rfl, fun h => absurd rfl h⟩
  rw [if_neg hT]
  by_cases hD : (player_physics c game player input).1 = c.PLAYER_DEAD
  · rw [if_pos hD]
    exact ⟨rfl, fun _ => rfl, fun _ _ => rfl, fun h => absurd rfl h⟩
  rw [if_neg hD]
  by_cases hF : (player_physics c game player input).2.py > (c.LEVEL_PIXEL_HEIGHT : ℚ)
  · rw [if_pos hF]
    exact ⟨rfl, fun _ => rfl, fun _ _ => rfl, fun h => absurd rfl h⟩
  rw [if_neg hF]
  by_cases hE : (enemies_loop c game (player_after_physics c game player input)
      game.enemies).1 = true
  · rw [if_pos hE]
    exact ⟨rfl, fun _ => rfl, fun _ _ => rfl, fun h => absurd rfl h⟩
  rw [if_neg hE]
  by_cases hC : (player_physics c game player input).2.px + (c.PLAYER_RIGHT : ℚ)
      ≥ (((c.LEVEL_WIDTH - 4) * c.TILE_SIZE : Int) : ℚ)
  · rw [if_pos hC]
    exact ⟨rfl, fun e => absurd e.symm h1, fun _ e => absurd e h5,
      fun _ => ⟨hT, hD, hF, Bool.eq_false_iff.mpr hE⟩⟩
  · rw [if_neg hC]
    have hr : (player_physics c game player input).1 ≠ c.PLAYER_TIMEOUT := by
      rcases hcode with h | h | h | h
      · exact absurd h hD
      · rw [h]; exact fun e => h2 e.symm
      · rw [h]; exact fun e => h3 e.symm
      · rw [h]; exact fun e => h4 e.symm
    exact ⟨rfl, fun e => absurd e hr, fun e => absurd e hD,
      fun _ => ⟨hT, hD, hF, Bool.eq_false_iff.mpr hE⟩⟩

/-- Witness of C20: the frame on which the player of `spikeGame` dies on the spike tile. -/
theorem game_update_terminal_no_score_witness :
    (game_update stdConfig spikeGame (freshPlayer (restBody 64 64)) noInput).2.2.fitness
      = (freshPlayer (restBody 64 64)).fitness :=
  (game_update_terminal_no_score stdConfig spikeGame (freshPlayer (restBody 64 64)) noInput
    (by decide) (by decide) (by decide) (by decide) (by decide)).2.2.1 (by decide!) (by decide!)

/-! ### Enemies (C14, C15) -/

/-- The physics step reads the tiles of the game only. -/
theorem physics_sim_enemies_irrelevant (c : Config) (game : Game) (es : List Enemy)
    (body : Body) (jump : Bool) :
    physics_sim c { game with enemies := es } body jump = physics_sim c game body jump := by
  rfl

/-- The update of one enemy reads the tiles of the game only. -/
theorem enemy_update_enemies_irrelevant (c : Config) (game : Game) (es : List Enemy)
    (e : Enemy) : enemy_update c { game with enemies := es } e = enemy_update c game e := by
  rfl

/-- The enemy loop reads the tiles of the game and the list it is run on only. -/
theorem enemies_loop_enemies_irrelevant (c : Config) (game : Game) (es : List Enemy)
    (player : Player) (enemies : List Enemy) :
    enemies_loop c { game with enemies := es } player enemies
      = enemies_loop c game player enemies := by
  induction enemies with
  | nil => rfl
  | cons e rest ih =>
    unfold enemies_loop
    rw [ih, enemy_update_enemies_irrelevant]

/-- The enemy loop keeps the number of enemies. -/
theorem enemies_loop_length (c : Config) (game : Game) (player : Player)
    (enemies : List Enemy) :
    (enemies_loop c game player enemies).2.length = enemies.length := by
  induction enemies with
  | nil => rfl
  | cons e rest ih =>
    unfold enemies_loop
    simp only []
    split_ifs <;> simp [ih]

/-- The enemy loop leaves an enemy whose `dead` flag is set as it is. -/
theorem enemies_loop_dead_unchanged (c : Config) (game : Game) (player : Player)
    (enemies : List Enemy) (i : Nat) (e : Enemy)
    (hi : enemies[i]? = some e) (hd : e.dead = true) :
    (enemies_loop c game player enemies).2[i]? = some e := by
  induction enemies generalizing i with
  | nil => simp at hi
  | cons a rest ih =>
    unfold enemies_loop
    cases i with
    | zero =>
      simp only [List.getElem?_cons_zero, Option.some.injEq] at hi
      subst hi
      simp [hd]
    | succ i =>
      simp only [List.getElem?_cons_succ] at hi
      simp only []
      split_ifs
      · simpa using hi
      · simpa using ih i hi
      · simpa using ih i hi

/-- Removing the enemies whose `dead` flag is set does not change whether the loop kills the
player. -/
theorem enemies_loop_kill_filter (c : Config) (game : Game) (player : Player)
    (enemies : List Enemy) :
    (enemies_loop c game player (enemies.filter fun e => !e.dead)).1
      = (enemies_loop c game player enemies).1 := by
  rw [Bool.eq_iff_iff, enemies_loop_kill_iff, enemies_loop_kill_iff]
  constructor
  · rintro ⟨e, he, h1, h2⟩
    exact ⟨e, (List.mem_filter.mp he).1, h1, h2⟩
  · rintro ⟨e, he, h1, h2⟩
    exact ⟨e, List.mem_filter.mpr ⟨he, by simp [h1]⟩, h1, h2⟩

/-- The enemy list after `game_update` is the input list or the outcome of the enemy loop. -/
theorem game_update_enemies (c : Config) (game : Game) (player : Player) (input : Nat → Nat) :
    (game_update c game player input).2.1.enemies = game.enemies ∨
      (game_update c game player input).2.1.enemies
        = (enemies_loop c game (player_after_physics c game player input) game.enemies).2 := by
  rw [game_update_eq]
  by_cases hT : player.time + 1 / (c.UPDATES_PS : ℚ) ≥ c.MAX_TIME - 1 / (c.UPDATES_PS : ℚ)
  · rw [if_pos hT]; exact Or.inl rfl
  rw [if_neg hT]
  by_cases hD : (player_physics c game player input).1 = c.PLAYER_DEAD
  · rw [if_pos hD]; exact Or.inl rfl
  rw [if_neg hD]
  by_cases hF : (player_physics c game player input).2.py > (c.LEVEL_PIXEL_HEIGHT : ℚ)
  · rw [if_pos hF]; exact Or.inl rfl
  rw [if_neg hF]
  by_cases hE : (enemies_loop c game (player_after_physics c game player input)
      game.enemies).1 = true
  · rw [if_pos hE]; exact Or.inr rfl
  rw [if_neg hE]
  by_cases hC : (player_physics c game player input).2.px + (c.PLAYER_RIGHT : ℚ)
      ≥ (((c.LEVEL_WIDTH - 4) * c.TILE_SIZE : Int) : ℚ)
  · rw [if_pos hC]; exact Or.inr rfl
  · rw [if_neg hC]; exact Or.inr rfl

/-- Return value and player of `game_update` depend on the game through its tiles and the
kill flag of the enemy loop only. -/
theorem game_update_player_of_kill_flag (c : Config) (game game' : Game) (player : Player)
    (input : Nat → Nat) (htiles : game'.tiles = game.tiles)
    (hk : (enemies_loop c game' (player_after_physics c game' player input) game'.enemies).1
      = (enemies_loop c game (player_after_physics c game player input) game.enemies).1) :
    (game_update c game' player input).1 = (game_update c game player input).1 ∧
      (game_update c game' player input).2.2 = (game_update c game player input).2.2 := by
  obtain ⟨tiles, enemies⟩ := game
  obtain ⟨tiles', enemies'⟩ := game'
  simp only at htiles
  subst htiles
  have hp : player_physics c { tiles := tiles', enemies := enemies' } player input
      = player_physics c { tiles := tiles', enemies := enemies } player input := rfl
  have hpa : player_after_physics c { tiles := tiles', enemies := enemies' } player input
      = player_after_physics c { tiles := tiles', enemies := enemies } player input := rfl
  rw [game_update_eq, game_update_eq, hk, hp, hpa]
  by_cases hT : player.time + 1 / (c.UPDATES_PS : ℚ) ≥ c.MAX_TIME - 1 / (c.UPDATES_PS : ℚ)
  · rw [if_pos hT, if_pos hT]; exact ⟨rfl, rfl⟩
  rw [if_neg hT, if_neg hT]
  split_ifs <;> exact ⟨rfl, rfl⟩

/-- C14. Enemy death is absorbing and dead enemies are inert: after any call of
`game_update` the number of enemies is unchanged; every enemy whose `dead` flag is set at
the start of the call is found unchanged (body, direction and `dead` flag, which therefore
stays set) at the same position; and the return value and the player left by the call
are the same as for the game with those enemies removed. -/
theorem enemy_death_absorbing (c : Config) (game : Game) (player : Player)
    (input : Nat → Nat) :
    (game_update c game player input).2.1.enemies.length = game.enemies.length ∧
      (∀ (i : Nat) (e : Enemy), game.enemies[i]? = some e → e.dead = true →
        (game_update c game player input).2.1.enemies[i]? = some e) ∧
      (game_update c { game with enemies := game.enemies.filter fun e => !e.dead } player
          input).1 = (game_update c game player input).1 ∧
      (game_update c { game with enemies := game.enemies.filter fun e => !e.dead } player
          input).2.2 = (game_update c game player input).2.2 := by
  refine ⟨?_, ?_, ?_⟩
  · rcases game_update_enemies c game player input with h | h <;> rw [h]
    exact enemies_loop_length c game _ _
  · intro i e hi hd
    rcases game_update_enemies c game player input with h | h <;> rw [h]
    · exact hi
    · exact enemies_loop_dead_unchanged c game _ _ i e hi hd
  · apply game_update_player_of_kill_flag c game
      { game with enemies := game.enemies.filter fun e => !e.dead } player input rfl
    have hpa : player_after_physics c
        { game with enemies := game.enemies.filter fun e => !e.dead } player input
        = player_after_physics c game player input := rfl
    rw [hpa]
    show (enemies_loop c { game with enemies := game.enemies.filter fun e => !e.dead }
      (player_after_physics c game player input)
      (game.enemies.filter fun e => !e.dead)).1 = _
    rw [enemies_loop_enemies_irrelevant, enemies_loop_kill_filter]

/-- Witness of C14: the dead enemy of `deadEnemyGame` is left unchanged by a frame. -/
theorem enemy_death_absorbing_witness :
    (game_update stdConfig deadEnemyGame (freshPlayer (restBody 64 64)) noInput).2.1.enemies[0]?
      = some { body := restBody 94 64, direction := 1, dead := true } :=
  (enemy_death_absorbing stdConfig deadEnemyGame (freshPlayer (restBody 64 64)) noInput).2.1 0
    { body := restBody 94 64, direction := 1, dead := true } rfl rfl

/-- The loop of lines 112-115 leaves `empty_below` set exactly when no tile of the column from
row `tile_y` down to row `LEVEL_HEIGHT - 1` is solid. -/
theorem empty_below_iff (c : Config) (game : Game) (tx ty : Int) :
    empty_below c game tx ty = true ↔
      ∀ y : Int, ty ≤ y → y < c.LEVEL_HEIGHT → tile_solid c game tx y = false := by
  unfold empty_below
  rw [List.all_eq_true]
  constructor
  · intro h y h1 h2
    have := h (y - ty).toNat (by rw [List.mem_range]; omega)
    have hy : ty + ((y - ty).toNat : Int) = y := by omega
    rw [hy] at this
    simpa using this
  · intro h k hk
    rw [List.mem_range] at hk
    have := h (ty + (k : Int)) (by omega) (by omega)
    simp [this]

/-- An enemy that is not dead and that the loop reaches is replaced by its update. -/
theorem enemies_loop_reached (c : Config) (game : Game) (player : Player)
    (pre post : List Enemy) (e : Enemy) (halive : e.dead = false)
    (hpre : (enemies_loop c game player pre).1 = false) :
    (enemies_loop c game player (pre ++ e :: post)).2[pre.length]?
      = some (enemy_update c game e) := by
  induction pre with
  | nil =>
    simp only [List.nil_append, List.length_nil]
    unfold enemies_loop
    simp only [halive, Bool.not_false, if_true]
    split_ifs <;> simp
  | cons a rest ih =>
    unfold enemies_loop at hpre
    simp only [List.cons_append]
    unfold enemies_loop
    by_cases ha : a.dead = true
    · simp only [ha, Bool.not_true, Bool.false_eq_true, if_false] at hpre ⊢
      simpa using ih hpre
    · have ha' : a.dead = false := by simpa using ha
      simp only [ha', Bool.not_false, if_true] at hpre ⊢
      by_cases hk : dist_lt player.body.px player.body.py (enemy_update c game a).body.px
          (enemy_update c game a).body.py 32 = true
      · simp [hk] at hpre
      · simp only [hk, if_false] at hpre ⊢
        simpa using ih hpre

/-- Body and direction of an updated enemy. -/
theorem enemy_update_direction (c : Config) (game : Game) (e : Enemy) :
    (enemy_update c game e).body = (enemy_physics c game e).2 ∧
      ((∀ y : Int, (enemy_physics c game e).2.tile_y ≤ y → y < c.LEVEL_HEIGHT →
          tile_solid c game (enemy_physics c game e).2.tile_x y = false) →
        (enemy_update c game e).direction = -e.direction) ∧
      (¬ (∀ y : Int, (enemy_physics c game e).2.tile_y ≤ y → y < c.LEVEL_HEIGHT →
          tile_solid c game (enemy_physics c game e).2.tile_x y = false) →
        ((((enemy_physics c game e).1 = c.COL_RIGHT ∧ e.direction > 0) ∨
            ((enemy_physics c game e).1 = c.COL_LEFT ∧ e.direction < 0)) →
          (enemy_update c game e).direction = -e.direction) ∧
        (¬ (((enemy_physics c game e).1 = c.COL_RIGHT ∧ e.direction > 0) ∨
            ((enemy_physics c game e).1 = c.COL_LEFT ∧ e.direction < 0)) →
          (enemy_update c game e).direction = e.direction)) ∧
      ((e.direction = 1 ∨ e.direction = -1) →
        ((enemy_update c game e).direction = 1 ∨ (enemy_update c game e).direction = -1)) := by
  have hform : (enemy_update c game e).direction =
      if empty_below c game (enemy_physics c game e).2.tile_x (enemy_physics c game e).2.tile_y
          = true then -e.direction
      else if (enemy_physics c game e).1 = c.COL_RIGHT ∧ e.direction > 0 then -e.direction
      else if (enemy_physics c game e).1 = c.COL_LEFT ∧ e.direction < 0 then -e.direction
      else e.direction := rfl
  have hdir : (enemy_update c game e).direction = -e.direction ∨
      (enemy_update c game e).direction = e.direction := by
    rw [hform]
    split_ifs <;> simp
  refine ⟨rfl, fun h => ?_, fun h => ⟨fun h' => ?_, fun h' => ?_⟩, fun h => ?_⟩
  · rw [hform, if_pos ((empty_below_iff c game _ _).mpr h)]
  · rw [hform, if_neg (fun hb => h ((empty_below_iff c game _ _).mp hb))]
    rcases h' with h' | h'
    · rw [if_pos h']
    · split_ifs <;> rfl
  · rw [hform, if_neg (fun hb => h ((empty_below_iff c game _ _).mp hb))]
    rw [if_neg (fun h1 => h' (Or.inl h1)), if_neg (fun h2 => h' (Or.inr h2))]
  · rcases hdir with h' | h' <;> rw [h'] <;> omega

/-- C15. Enemy turning rule: on a call of `game_update` that reaches the enemy loop (no
timeout, no death in the player's physics step, no fall below the level) and reaches an
enemy that is not dead (no enemy before it kills the player), the enemy stored at its
position afterwards has the body left by its physics step, and its direction is the
negation of the previous one if no tile of column `body.tile_x` from row `body.tile_y`
(after physics) down to row `LEVEL_HEIGHT - 1` is solid; otherwise it is the negation when
the physics step reported `COL_RIGHT` with direction > 0 or `COL_LEFT` with direction < 0,
and the previous direction in every other case; a direction in {+1, -1} stays there. -/
theorem enemy_turning_rule (c : Config) (game : Game) (player : Player) (input : Nat → Nat)
    (pre post : List Enemy) (e : Enemy)
    (hT : ¬ (player.time + 1 / (c.UPDATES_PS : ℚ) ≥ c.MAX_TIME - 1 / (c.UPDATES_PS : ℚ)))
    (hD : (player_physics c game player input).1 ≠ c.PLAYER_DEAD)
    (hF : ¬ ((player_physics c game player input).2.py > (c.LEVEL_PIXEL_HEIGHT : ℚ)))
    (hes : game.enemies = pre ++ e :: post) (halive : e.dead = false)
    (hpre : (enemies_loop c game (player_after_physics c game player input) pre).1 = false) :
    ∃ e' : Enemy, (game_update c game player input).2.1.enemies[pre.length]? = some e' ∧
      e'.body = (enemy_physics c game e).2 ∧
      ((∀ y : Int, (enemy_physics c game e).2.tile_y ≤ y → y < c.LEVEL_HEIGHT →
          tile_solid c game (enemy_physics c game e).2.tile_x y = false) →
        e'.direction = -e.direction) ∧
      (¬ (∀ y : Int, (enemy_physics c game e).2.tile_y ≤ y → y < c.LEVEL_HEIGHT →
          tile_solid c game (enemy_physics c game e).2.tile_x y = false) →
        ((((enemy_physics c game e).1 = c.COL_RIGHT ∧ e.direction > 0) ∨
            ((enemy_physics c game e).1 = c.COL_LEFT ∧ e.direction < 0)) →
          e'.direction = -e.direction) ∧
        (¬ (((enemy_physics c game e).1 = c.COL_RIGHT ∧ e.direction > 0) ∨
            ((enemy_physics c game e).1 = c.COL_LEFT ∧ e.direction < 0)) →
          e'.direction = e.direction)) ∧
      ((e.direction = 1 ∨ e.direction = -1) → (e'.direction = 1 ∨ e'.direction = -1)) := by
  refine ⟨enemy_update c game e, ?_, enemy_update_direction c game e⟩
  have hen : (game_update c game player input).2.1.enemies
      = (enemies_loop c game (player_after_physics c game player input) game.enemies).2 := by
    rw [game_update_eq, if_neg hT, if_neg hD, if_neg hF]
    split_ifs <;> rfl
  rw [hen, hes]
  exact enemies_loop_reached c game _ pre post e halive hpre

/-- Witness of C15: the enemy of `walkerGame`, walking on the grass row. -/
theorem enemy_turning_rule_witness :
    ∃ e' : Enemy,
      (game_update stdConfig walkerGame (freshPlayer (restBody 64 64)) noInput).2.1.enemies[
          ([] : List Enemy).length]? = some e' ∧
      e'.body = (enemy_physics stdConfig walkerGame
        { body := restBody 256 64, direction := 1, dead := false }).2 ∧
      (e'.direction = 1 ∨ e'.direction = -1) :=
  match enemy_turning_rule stdConfig walkerGame (freshPlayer (restBody 64 64)) noInput [] []
    { body := restBody 256 64, direction := 1, dead := false }
    (by decide!) (by decide!) (by decide!) rfl rfl rfl with
  | ⟨e', h1, h2, _, _, h5⟩ => ⟨e', h1, h2, h5 (Or.inl rfl)⟩

/-! ### Level boundary (C16) -/

/-- A body stopped by the horizontal phase at an integer position keeps `vx = 0` and that
position to the end of the physics step, which returns `PLAYER_DEAD` or the collision code. -/
theorem physics_sim_of_horizontal (c : Config) (game : Game) (body : Body) (jump : Bool)
    (n : Int)
    (hvx : (horizontal_step c game (jump_step c body jump)).1.vx = 0)
    (hpx : (horizontal_step c game (jump_step c body jump)).1.px = (n : ℚ)) :
    (physics_sim c game body jump).2.vx = 0 ∧ (physics_sim c game body jump).2.px = (n : ℚ) ∧
      ((physics_sim c game body jump).1 = c.PLAYER_DEAD ∨
        (physics_sim c game body jump).1 = (horizontal_step c game (jump_step c body jump)).2) := by
  have hb := bottom_collision_px_vx c game
    (edge_tile_xl c (horizontal_step c game (jump_step c body jump)).1)
    (edge_tile_xr c (horizontal_step c game (jump_step c body jump)).1)
    (look_feet_y c (jump_step c body jump)) (horizontal_step c game (jump_step c body jump)).1
  have ht := top_collision_px_vx c game
    (edge_tile_xl c (horizontal_step c game (jump_step c body jump)).1)
    (edge_tile_xr c (horizontal_step c game (jump_step c body jump)).1)
    (look_top_y c (jump_step c body jump))
    (bottom_collision c game
      (edge_tile_xl c (horizontal_step c game (jump_step c body jump)).1)
      (edge_tile_xr c (horizontal_step c game (jump_step c body jump)).1)
      (look_feet_y c (jump_step c body jump)) (horizontal_step c game (jump_step c body jump)).1).2
  unfold physics_sim
  simp only []
  split_ifs
  · rw [hb.1, hb.2, hvx, hpx]
    exact ⟨rfl, rfl, Or.inl rfl⟩
  · rw [ht.1, ht.2, hb.1, hb.2, hvx, hpx]
    exact ⟨rfl, rfl, Or.inl rfl⟩
  · simp only [apply_velocity]
    rw [ht.1, ht.2, hb.1, hb.2, hvx, hpx, add_zero, cround_intCast]
    exact ⟨rfl, rfl, Or.inr trivial⟩

/-- C16 (amended). `physics_sim` treats the horizontal level boundary as a wall, although
tile queries out of bounds answer the non-solid `EMPTY`: for every body whose look-ahead
left-edge column is negative, `vx` is zeroed, `px` is snapped to
`(left_x + 1) * TILE_SIZE - PLAYER_MARGIN + 2` and the step returns `COL_LEFT` (or
`PLAYER_DEAD`); for every body whose look-ahead right-edge column is `>= LEVEL_WIDTH`
and for which the left check does not fire, `vx` is zeroed, `px` is snapped to
`(right_x - 1) * TILE_SIZE + PLAYER_MARGIN - 2` and the step returns `COL_RIGHT` (or
`PLAYER_DEAD`). -/
theorem physics_sim_level_boundary (c : Config) (game : Game) (body : Body) (jump : Bool) :
    (look_left_x c (jump_step c body jump) < 0 →
        (physics_sim c game body jump).2.vx = 0 ∧
          (physics_sim c game body jump).2.px =
            (((look_left_x c (jump_step c body jump) + 1) * c.TILE_SIZE - c.PLAYER_MARGIN + 2
              : Int) : ℚ) ∧
          ((physics_sim c game body jump).1 = c.PLAYER_DEAD ∨
            (physics_sim c game body jump).1 = c.COL_LEFT)) ∧
      (look_right_x c (jump_step c body jump) ≥ c.LEVEL_WIDTH →
        ¬ (look_left_x c (jump_step c body jump) < 0) →
        tile_solid c game (look_left_x c (jump_step c body jump))
          (look_tile_y c (jump_step c body jump)) = false →
        (physics_sim c game body jump).2.vx = 0 ∧
          (physics_sim c game body jump).2.px =
            (((look_right_x c (jump_step c body jump) - 1) * c.TILE_SIZE + c.PLAYER_MARGIN - 2
              : Int) : ℚ) ∧
          ((physics_sim c game body jump).1 = c.PLAYER_DEAD ∨
            (physics_sim c game body jump).1 = c.COL_RIGHT)) := by
  constructor
  · intro hl
    have h : (horizontal_step c game (jump_step c body jump)).1.vx = 0 ∧
        (horizontal_step c game (jump_step c body jump)).1.px =
          (((look_left_x c (jump_step c body jump) + 1) * c.TILE_SIZE - c.PLAYER_MARGIN + 2
            : Int) : ℚ) ∧
        (horizontal_step c game (jump_step c body jump)).2 = c.COL_LEFT := by
      unfold horizontal_step left_collision
      simp only [hl, decide_True, Bool.or_true, if_true, and_self]
    have := physics_sim_of_horizontal c game body jump _ h.1 h.2.1
    rw [h.2.2] at this
    exact this
  · intro hr hl hs
    have h : (horizontal_step c game (jump_step c body jump)).1.vx = 0 ∧
        (horizontal_step c game (jump_step c body jump)).1.px =
          (((look_right_x c (jump_step c body jump) - 1) * c.TILE_SIZE + c.PLAYER_MARGIN - 2
            : Int) : ℚ) ∧
        (horizontal_step c game (jump_step c body jump)).2 = c.COL_RIGHT := by
      unfold horizontal_step left_collision right_collision
      simp only [hl, hs, hr, decide_True, decide_False, Bool.or_true, Bool.or_false, if_true,
        Bool.false_eq_true, if_false, and_self]
    have := physics_sim_of_horizontal c game body jump _ h.1 h.2.1
    rw [h.2.2] at this
    exact this

/-- C16 (counterexample). In the empty level a body moving right whose look-ahead right edge
is in column 256, where the tile query is not solid, is stopped: `vx` becomes 0, `px` is
snapped to 8162 and `COL_RIGHT` is returned; a body moving left whose look-ahead left edge
is in column -1 is stopped likewise, with `px` snapped to -2 and `COL_LEFT` returned. -/
theorem side_wall_claim_fails :
    look_right_x stdConfig (jump_step stdConfig rightEdgeBody false) ≥ stdConfig.LEVEL_WIDTH ∧
      tile_solid stdConfig emptyGame
        (look_right_x stdConfig (jump_step stdConfig rightEdgeBody false))
        (look_tile_y stdConfig (jump_step stdConfig rightEdgeBody false)) = false ∧
      (physics_sim stdConfig emptyGame rightEdgeBody false).2.vx = 0 ∧
      (physics_sim stdConfig emptyGame rightEdgeBody false).2.px = 8162 ∧
      (physics_sim stdConfig emptyGame rightEdgeBody false).1 = stdConfig.COL_RIGHT ∧
      look_left_x stdConfig (jump_step stdConfig leftEdgeBody false) < 0 ∧
      (physics_sim stdConfig emptyGame leftEdgeBody false).2.vx = 0 ∧
      (physics_sim stdConfig emptyGame leftEdgeBody false).2.px = -2 ∧
      (physics_sim stdConfig emptyGame leftEdgeBody false).1 = stdConfig.COL_LEFT := by
  decide!

/-- Witness of C16 (amended): the body at the right edge of the empty level. -/
theorem physics_sim_level_boundary_witness :
    (physics_sim stdConfig emptyGame rightEdgeBody false).2.vx = 0 ∧
      (physics_sim stdConfig emptyGame rightEdgeBody false).2.px =
        (((look_right_x stdConfig (jump_step stdConfig rightEdgeBody false) - 1)
            * stdConfig.TILE_SIZE + stdConfig.PLAYER_MARGIN - 2 : Int) : ℚ) ∧
      ((physics_sim stdConfig emptyGame rightEdgeBody false).1 = stdConfig.PLAYER_DEAD ∨
        (physics_sim stdConfig emptyGame rightEdgeBody false).1 = stdConfig.COL_RIGHT) :=
  (physics_sim_level_boundary stdConfig emptyGame rightEdgeBody false).2
    (by decide!) (by decide!) (by decide!)

/-! ### Masks of the evaluator (C17) -/

/-- Sums of termwise equal functions are equal. -/
theorem sum_upto_congr (n : Nat) (f g : Nat → ℚ) (h : ∀ i, i < n → f i = g i) :
    sum_upto n f = sum_upto n g := by
  unfold sum_upto
  congr 1
  apply List.map_congr_left
  intro i hi
  exact h i (List.mem_range.mp hi)

/-- An input cell whose mask byte is 1 adds the term zero to every first-layer sum. -/
theorem input_term_inactive (net : Network) (x : Nat → ℚ) (i j : Nat)
    (h : net.input_act i = 1) : input_term net x i j = 0 := by
  unfold input_term input_active
  simp [h]

/-- A hidden neuron whose mask byte is 1 has output zero. -/
theorem hidden_out_inactive (net : Network) (act : ℚ → ℚ) (x : Nat → ℚ) (l j : Nat)
    (h : net.hidden_act l j = 1) : hidden_out net act x l j = 0 := by
  cases l <;> unfold hidden_out hidden_active <;> simp [h]

/-- An inactive hidden neuron has output zero. -/
theorem hidden_out_of_not_active (net : Network) (act : ℚ → ℚ) (x : Nat → ℚ) (l j : Nat)
    (h : hidden_active net l j = false) : hidden_out net act x l j = 0 := by
  cases l <;> unfold hidden_out <;> simp [h]

/-- Hidden outputs agree for two networks and inputs that differ only in the weights attached
to inactive units and in the values of inactive input cells. -/
theorem hidden_out_congr (net net' : Network) (act : ℚ → ℚ) (x x' : Nat → ℚ)
    (hh : net'.in_h = net.in_h) (hw : net'.in_w = net.in_w) (hn : net'.npl = net.npl)
    (hmi : net'.input_act = net.input_act) (hmh : net'.hidden_act = net.hidden_act)
    (hx : ∀ i, input_active net i = true → x' i = x i)
    (hin : ∀ i j, input_active net i = true → hidden_active net 0 j = true →
      net'.w_in i j = net.w_in i j)
    (hhid : ∀ l k j, hidden_active net l k = true → hidden_active net (l + 1) j = true →
      net'.w_hid l k j = net.w_hid l k j) (l j : Nat) :
    hidden_out net' act x' l j = hidden_out net act x l j := by
  have hia : ∀ i, input_active net' i = input_active net i := by
    intro i; unfold input_active; rw [hmi]
  have hha : ∀ l j, hidden_active net' l j = hidden_active net l j := by
    intro l j; unfold hidden_active; rw [hmh]
  induction l generalizing j with
  | zero =>
    unfold hidden_out
    rw [hha, hh, hw]
    by_cases hj : hidden_active net 0 j = true
    · rw [if_pos hj, if_pos hj]
      congr 1
      apply sum_upto_congr
      intro i _
      unfold input_term
      rw [hia]
      by_cases hi : input_active net i = true
      · rw [if_pos hi, if_pos hi, hx i hi, hin i j hi hj]
      · rw [if_neg hi, if_neg hi, zero_mul, zero_mul]
    · rw [if_neg hj, if_neg hj]
  | succ l ih =>
    unfold hidden_out
    rw [hha, hn]
    by_cases hj : hidden_active net (l + 1) j = true
    · rw [if_pos hj, if_pos hj]
      congr 1
      apply sum_upto_congr
      intro k _
      rw [ih k]
      by_cases hk : hidden_active net l k = true
      · rw [hhid l k j hk hj]
      · rw [hidden_out_of_not_active net act x l k (by simpa using hk), zero_mul, zero_mul]
    · rw [if_neg hj, if_neg hj]

/-- C17. Masking overrides weights: for every decoded network and input vector, an input
cell whose mask byte is 1 adds the term zero to every sum of the first hidden layer,
whatever its weights; a hidden neuron whose mask byte is 1 has output zero, whatever its
weights; and the output of the evaluator is the same for two networks with equal sizes
and masks and two input vectors that differ only in the weights attached to inactive
units and in the values of inactive input cells. -/
theorem masking_overrides_weights (net net' : Network) (act : ℚ → ℚ) (x x' : Nat → ℚ) :
    (∀ i j, net.input_act i = 1 → input_term net x i j = 0) ∧
      (∀ l j, net.hidden_act l j = 1 → hidden_out net act x l j = 0) ∧
      (net'.in_h = net.in_h → net'.in_w = net.in_w → net'.npl = net.npl →
        net'.hlc = net.hlc → net'.input_act = net.input_act →
        net'.hidden_act = net.hidden_act →
        (∀ i, net.input_act i = 0 → x' i = x i) →
        (∀ i j, net.input_act i = 0 → net.hidden_act 0 j = 0 → net'.w_in i j = net.w_in i j) →
        (∀ l k j, net.hidden_act l k = 0 → net.hidden_act (l + 1) j = 0 →
          net'.w_hid l k j = net.w_hid l k j) →
        (∀ k o, net.hidden_act (net.hlc - 1) k = 0 → net'.w_out k o = net.w_out k o) →
        ∀ o, evaluate net' act x' o = evaluate net act x o) := by
  refine ⟨fun i j h => input_term_inactive net x i j h,
    fun l j h => hidden_out_inactive net act x l j h, ?_⟩
  intro hh hw hn hl hmi hmh hx hin hhid hout o
  unfold evaluate
  rw [hn, hl]
  apply sum_upto_congr
  intro k _
  rw [hidden_out_congr net net' act x x' hh hw hn hmi hmh
    (fun i hi => hx i (by simpa [input_active] using hi))
    (fun i j hi hj => hin i j (by simpa [input_active] using hi)
      (by simpa [hidden_active] using hj))
    (fun l k j hk hj => hhid l k j (by simpa [hidden_active] using hk)
      (by simpa [hidden_active] using hj))]
  by_cases hk : hidden_active net (net.hlc - 1) k = true
  · rw [hout k o (by simpa [hidden_active] using hk)]
  · rw [hidden_out_of_not_active net act x _ k (by simpa using hk), zero_mul, zero_mul]

/-- Witness of C17: in `maskedNet` the second input cell and the second hidden neuron have
mask byte 1; their terms are zero and the output does not change when their weights and
the value of the masked input change. -/
theorem masking_overrides_weights_witness :
    input_term maskedNet unitInput 1 0 = 0 ∧ hidden_out maskedNet softsign unitInput 0 1 = 0 ∧
      ∀ o, evaluate { maskedNet with w_in := fun i j => if i = 1 ∨ j = 1 then 5 else 1 }
          softsign (fun i => if i = 1 then 7 else 1) o
        = evaluate maskedNet softsign unitInput o :=
  ⟨(masking_overrides_weights maskedNet maskedNet softsign unitInput unitInput).1 1 0 rfl,
    (masking_overrides_weights maskedNet maskedNet softsign unitInput unitInput).2.1 0 1 rfl,
    (masking_overrides_weights maskedNet
      { maskedNet with w_in := fun i j => if i = 1 ∨ j = 1 then 5 else 1 } softsign unitInput
      (fun i => if i = 1 then 7 else 1)).2.2 rfl rfl rfl rfl rfl rfl
      (fun i hi => by
        have : i = 0 := by
          by_contra h
          simp [maskedNet, h] at hi
        subst this
        simp [unitInput])
      (fun i j hi hj => by
        have h1 : i = 0 := by
          by_contra h
          simp [maskedNet, h] at hi
        have h2 : j = 0 := by
          by_contra h
          simp [maskedNet, h] at hj
        subst h1 h2
        simp [maskedNet])
      (fun _ _ _ _ _ => rfl) (fun _ _ _ => rfl)⟩

/-! ### Immunity and jump state (C18, C19) -/

/-- The bottom collision never signals death for an immune body, and keeps it immune. -/
theorem bottom_collision_immune (c : Config) (game : Game) (xl xr fy : Int) (b : Body)
    (h : b.immune = true) :
    (bottom_collision c game xl xr fy b).1 = false ∧
      (bottom_collision c game xl xr fy b).2.immune = true := by
  unfold bottom_collision
  simp only [h]
  split_ifs <;> simp_all

/-- The top collision never signals death for an immune body. -/
theorem top_collision_immune (c : Config) (game : Game) (xl xr ty : Int) (b : Body)
    (h : b.immune = true) : (top_collision c game xl xr ty b).1 = false := by
  unfold top_collision
  simp only [h]
  split_ifs <;> simp_all

/-- C18. Immune bodies are hazard-proof: for every body with `immune == true` the result of
`physics_sim` is 0, `COL_RIGHT` or `COL_LEFT`; hence it is not `PLAYER_DEAD` when that
code differs from these three. -/
theorem physics_sim_immune (c : Config) (game : Game) (body : Body) (jump : Bool)
    (himm : body.immune = true) :
    ((physics_sim c game body jump).1 = 0 ∨ (physics_sim c game body jump).1 = c.COL_RIGHT ∨
        (physics_sim c game body jump).1 = c.COL_LEFT) ∧
      (c.PLAYER_DEAD ≠ 0 → c.PLAYER_DEAD ≠ c.COL_RIGHT → c.PLAYER_DEAD ≠ c.COL_LEFT →
        (physics_sim c game body jump).1 ≠ c.PLAYER_DEAD) := by
  have hi := (horizontal_step_immune_vy c game (jump_step c body jump)).1
  rw [jump_step_immune, himm] at hi
  have hb := bottom_collision_immune c game
    (edge_tile_xl c (horizontal_step c game (jump_step c body jump)).1)
    (edge_tile_xr c (horizontal_step c game (jump_step c body jump)).1)
    (look_feet_y c (jump_step c body jump)) _ hi
  have ht := top_collision_immune c game
    (edge_tile_xl c (horizontal_step c game (jump_step c body jump)).1)
    (edge_tile_xr c (horizontal_step c game (jump_step c body jump)).1)
    (look_top_y c (jump_step c body jump)) _ hb.2
  have hcode : (physics_sim c game body jump).1 = (horizontal_step c game (jump_step c body jump)).2 := by
    unfold physics_sim
    simp only [hb.1, ht, Bool.false_eq_true, if_false]
  have h3 := horizontal_step_code c game (jump_step c body jump)
  rw [← hcode] at h3
  refine ⟨h3, fun h0 hR hL hd => ?_⟩
  rcases h3 with h | h | h <;> rw [hd] at h
  · exact h0 h
  · exact hR h
  · exact hL h

/-- Witness of C18: an immune body standing on the spike tile of `spikeGame`. -/
theorem physics_sim_immune_witness :
    (physics_sim stdConfig spikeGame { restBody 64 64 with immune := true } false).1 = 0 ∨
      (physics_sim stdConfig spikeGame { restBody 64 64 with immune := true } false).1
        = stdConfig.COL_RIGHT ∨
      (physics_sim stdConfig spikeGame { restBody 64 64 with immune := true } false).1
        = stdConfig.COL_LEFT :=
  (physics_sim_immune stdConfig spikeGame { restBody 64 64 with immune := true } false rfl).1

/-- After jump handling, `isjump` is cleared when jump is released, and `isjump` set means
`vy > -V_JUMP`. -/
theorem jump_step_isjump (c : Config) (body : Body) (jump : Bool) :
    (jump = false → (jump_step c body jump).isjump = false) ∧
      ((jump_step c body jump).isjump = true → (jump_step c body jump).vy > -c.V_JUMP) := by
  unfold jump_step
  constructor
  · intro hj
    subst hj
    simp only [Bool.false_and, Bool.false_eq_true, if_false, Bool.not_false, Bool.true_and]
    split_ifs <;> simp_all
  · simp only []
    split_ifs <;> simp_all

/-- The horizontal phase leaves `isjump` alone. -/
theorem horizontal_step_isjump (c : Config) (game : Game) (b : Body) :
    (horizontal_step c game b).1.isjump = b.isjump := by
  unfold horizontal_step left_collision right_collision integrate_velocity
  split_ifs <;> rfl

/-- The bottom collision leaves `isjump` alone and keeps `vy` or sets it to 0. -/
theorem bottom_collision_isjump (c : Config) (game : Game) (xl xr fy : Int) (b : Body) :
    (bottom_collision c game xl xr fy b).2.isjump = b.isjump ∧
      ((bottom_collision c game xl xr fy b).2.vy = b.vy ∨
        (bottom_collision c game xl xr fy b).2.vy = 0) := by
  unfold bottom_collision
  simp only []
  split_ifs <;> simp

/-- The top collision clears `isjump` or leaves `isjump` and `vy` alone. -/
theorem top_collision_isjump (c : Config) (game : Game) (xl xr ty : Int) (b : Body) :
    (top_collision c game xl xr ty b).2.isjump = false ∨
      ((top_collision c game xl xr ty b).2.isjump = b.isjump ∧
        (top_collision c game xl xr ty b).2.vy = b.vy) := by
  unfold top_collision
  simp only []
  split_ifs <;> simp

/-- C19. Jump state: (a) after `physics_sim` called with `jump == false` the flag `isjump`
is false; (b) with `GRAVITY >= 0` and `V_JUMP > 0`, after `physics_sim` with any jump
input, `isjump == true` implies `vy > -V_JUMP`. -/
theorem physics_sim_jump_state (c : Config) (game : Game) (body : Body) :
    (physics_sim c game body false).2.isjump = false ∧
      (0 ≤ c.GRAVITY → 0 < c.V_JUMP → ∀ jump : Bool,
        (physics_sim c game body jump).2.isjump = true →
          (physics_sim c game body jump).2.vy > -c.V_JUMP) := by
  have key : ∀ jump : Bool,
      ((jump_step c body jump).isjump = false → (physics_sim c game body jump).2.isjump = false) ∧
      (0 ≤ c.GRAVITY → 0 < c.V_JUMP → (physics_sim c game body jump).2.isjump = true →
          (physics_sim c game body jump).2.vy > -c.V_JUMP) := by
    intro jump
    have hj := jump_step_isjump c body jump
    have hh := horizontal_step_isjump c game (jump_step c body jump)
    have hv := (horizontal_step_immune_vy c game (jump_step c body jump)).2
    have hb := bottom_collision_isjump c game
      (edge_tile_xl c (horizontal_step c game (jump_step c body jump)).1)
      (edge_tile_xr c (horizontal_step c game (jump_step c body jump)).1)
      (look_feet_y c (jump_step c body jump)) (horizontal_step c game (jump_step c body jump)).1
    have ht := top_collision_isjump c game
      (edge_tile_xl c (horizontal_step c game (jump_step c body jump)).1)
      (edge_tile_xr c (horizontal_step c game (jump_step c body jump)).1)
      (look_top_y c (jump_step c body jump))
      (bottom_collision c game
        (edge_tile_xl c (horizontal_step c game (jump_step c body jump)).1)
        (edge_tile_xr c (horizontal_step c game (jump_step c body jump)).1)
        (look_feet_y c (jump_step c body jump))
        (horizontal_step c game (jump_step c body jump)).1).2
    rw [hb.1, hh] at ht
    have hbi := hb.1
    rw [hh] at hbi
    have hbv := hb.2
    rw [hv] at hbv
    unfold physics_sim
    simp only []
    split_ifs
    · refine ⟨fun h => by rw [hbi]; exact h, fun hG hV h => ?_⟩
      rw [hbi] at h
      have := hj.2 h
      rcases hbv with e | e <;> rw [e] <;> linarith
    · refine ⟨fun h => ?_, fun hG hV h => ?_⟩
      · rcases ht with e | ⟨e, _⟩
        · exact e
        · rw [e]; exact h
      · rcases ht with e | ⟨e, e'⟩
        · rw [e] at h; exact absurd h (by simp)
        · rw [e] at h
          rw [e']
          have := hj.2 h
          rcases hbv with e2 | e2 <;> rw [e2] <;> linarith
    · simp only [apply_velocity]
      refine ⟨fun h => ?_, fun hG hV h => ?_⟩
      · rcases ht with e | ⟨e, _⟩
        · exact e
        · rw [e]; exact h
      · rcases ht with e | ⟨e, e'⟩
        · rw [e] at h; exact absurd h (by simp)
        · rw [e] at h
          rw [e']
          have := hj.2 h
          rcases hbv with e2 | e2 <;> rw [e2] <;> linarith
  exact ⟨(key false).1 ((jump_step_isjump c body false).1 rfl), fun hG hV jump => (key jump).2 hG hV⟩

/-- Witness of C19: a standing body that starts a jump in the empty level is still jumping
after the frame, with `vy` above `-V_JUMP`. -/
theorem physics_sim_jump_state_witness :
    (physics_sim stdConfig emptyGame jumpBody true).2.vy > -stdConfig.V_JUMP :=
  (physics_sim_jump_state stdConfig emptyGame jumpBody).2 (by decide!) (by decide!) true
    (by decide!)

end PettingZoo
